import Mathlib

/-!
# Veribot: request/answer commitment and proof-token protocol

A shallow embedding of `backend/0g-client.ts` (the `ZeroGClient` class) and of the
request handlers of `backend/index.ts`.

Modelling conventions.

* A JavaScript string is a Lean `String`, i.e. a sequence of Unicode scalar values.
  The operations the source applies to strings (`length`, `startsWith`, `includes`)
  work on UTF-16 code units, so they are defined here on the UTF-16 encoding of the
  string.  A string holding unpaired surrogates is no `String`; where the source treats
  such a string differently (`ethers.toUtf8Bytes` throws on some) it is given by its code
  units (`ethersToUtf8Bytes`, `chatHandlerUpToHash`).
* Bytes and machine words are natural numbers, reduced explicitly modulo `2^w`.
* A JavaScript number is a double; the two places where the source rounds
  (`Math.random() * 1000000` and `Number(bigint)`) are computed exactly as IEEE 754
  rounds them (`nearestDouble`).
* A promise that rejects / a call that throws is an `Except String _` whose error is
  the message of the thrown error.
* The clock (`Date.now()`) and the random source (`Math.random()`) are inputs.
-/

namespace Veribot

/-! ## JavaScript strings -/

/-- UTF-16 code units of one Unicode scalar value. -/
def utf16EncodeChar (c : Char) : List Nat :=
  if c.toNat < 0x10000 then [c.toNat]
  else [0xD800 + (c.toNat - 0x10000) / 0x400, 0xDC00 + (c.toNat - 0x10000) % 0x400]

/-- UTF-16 code units of a sequence of characters. -/
def utf16Units : List Char → List Nat
  | [] => []
  | c :: cs => utf16EncodeChar c ++ utf16Units cs

/-- JavaScript `s.length`: the number of UTF-16 code units of `s`. -/
def jsLength (s : String) : Nat := (utf16Units s.toList).length

/-- JavaScript `s.startsWith(p)`: the code units of `p` are the first code units of `s`. -/
def startsWith (s p : String) : Bool :=
  (utf16Units p.toList).isPrefixOf (utf16Units s.toList)

/-- Does the code-unit sequence `needle` occur in `hay` (at some position)? -/
def unitsInclude (needle : List Nat) : List Nat → Bool
  | [] => needle.isPrefixOf []
  | u :: us => needle.isPrefixOf (u :: us) || unitsInclude needle us

/-- JavaScript `s.includes(p)`. -/
def includes (s p : String) : Bool :=
  unitsInclude (utf16Units p.toList) (utf16Units s.toList)

/-- UTF-8 bytes of one Unicode scalar value. -/
def utf8EncodeChar (c : Char) : List Nat :=
  let v := c.toNat
  if v < 0x80 then [v]
  else if v < 0x800 then [0xC0 + v / 0x40, 0x80 + v % 0x40]
  else if v < 0x10000 then [0xE0 + v / 0x1000, 0x80 + v / 0x40 % 0x40, 0x80 + v % 0x40]
  else [0xF0 + v / 0x40000, 0x80 + v / 0x1000 % 0x40, 0x80 + v / 0x40 % 0x40, 0x80 + v % 0x40]

/-- UTF-8 bytes of a sequence of characters. -/
def utf8Units : List Char → List Nat
  | [] => []
  | c :: cs => utf8EncodeChar c ++ utf8Units cs

/-- UTF-8 encoding of a string: the encoding Node's `hash.update(string)` applies, and
what `ethers.toUtf8Bytes` returns for a string without unpaired surrogates (see
`ethersToUtf8Bytes`). -/
def toUtf8Bytes (s : String) : List Nat := utf8Units s.toList

/-- Put bytes in front of the rest of an encoding, when the rest could be encoded. -/
def prependBytes (bytes : List Nat) : Except String (List Nat) → Except String (List Nat)
  | .ok rest => .ok (bytes ++ rest)
  | .error e => .error e

/-- Function `toUtf8Bytes` of ethers (version 6) on a string as JavaScript holds it, by
its UTF-16 code units: one to three bytes for a single unit, four for a surrogate pair.
It throws when a high surrogate is not followed by a low surrogate; a low surrogate that
follows no high surrogate is encoded by three bytes.  The error is given by the text of
the failed assertion, to which ethers appends the argument, an error code and its version
number. -/
def ethersToUtf8Bytes : List Nat → Except String (List Nat)
  | [] => .ok []
  | c :: rest =>
    if c < 0x80 then
      prependBytes [c] (ethersToUtf8Bytes rest)
    else if c < 0x800 then
      prependBytes [0xC0 + c / 0x40, 0x80 + c % 0x40] (ethersToUtf8Bytes rest)
    else if 0xD800 ≤ c ∧ c < 0xDC00 then
      match rest with
      | [] => .error "invalid surrogate pair"
      | c2 :: rest2 =>
        if 0xDC00 ≤ c2 ∧ c2 < 0xE000 then
          let pair := 0x10000 + c % 0x400 * 0x400 + c2 % 0x400
          prependBytes
            [0xF0 + pair / 0x40000, 0x80 + pair / 0x1000 % 0x40, 0x80 + pair / 0x40 % 0x40,
              0x80 + pair % 0x40]
            (ethersToUtf8Bytes rest2)
        else .error "invalid surrogate pair"
    else
      prependBytes [0xE0 + c / 0x1000, 0x80 + c / 0x40 % 0x40, 0x80 + c % 0x40]
        (ethersToUtf8Bytes rest)

/-- Number of bytes of the UTF-8 encoding of a string. -/
def utf8ByteLength (s : String) : Nat := (toUtf8Bytes s).length

/-- One lower-case hexadecimal digit. -/
def hexDigit (n : Nat) : Char :=
  "0123456789abcdef".toList.getD (n % 16) '0'

/-- Two hexadecimal digits of a byte. -/
def hexByte (b : Nat) : List Char := [hexDigit (b / 16), hexDigit b]

/-- Decimal digit character. -/
def decDigit (n : Nat) : Char := Char.ofNat (48 + n % 10)

/-- JavaScript `n.toString()` for a non-negative integer `n`: its decimal digits,
most significant first. -/
def numberToString (n : Nat) : String :=
  String.mk (if n = 0 then ['0'] else ((Nat.digits 10 n).map decDigit).reverse)

/-! ## SHA-256 (FIPS 180-4), the digest behind `crypto.createHash('sha256')` -/

namespace Sha256

/-- Reduction to a 32-bit word. -/
def w32 (x : Nat) : Nat := x % 2 ^ 32

/-- Rotate a 32-bit word right by `n` bits. -/
def rotr (x n : Nat) : Nat := w32 ((x >>> n) ||| (x <<< (32 - n)))

def ch (x y z : Nat) : Nat := (x &&& y) ^^^ ((w32 (x ^^^ 0xffffffff)) &&& z)

def maj (x y z : Nat) : Nat := (x &&& y) ^^^ (x &&& z) ^^^ (y &&& z)

def bigSigma0 (x : Nat) : Nat := rotr x 2 ^^^ rotr x 13 ^^^ rotr x 22

def bigSigma1 (x : Nat) : Nat := rotr x 6 ^^^ rotr x 11 ^^^ rotr x 25

def smallSigma0 (x : Nat) : Nat := rotr x 7 ^^^ rotr x 18 ^^^ (x >>> 3)

def smallSigma1 (x : Nat) : Nat := rotr x 17 ^^^ rotr x 19 ^^^ (x >>> 10)

/-- The 64 round constants. -/
def K : List Nat :=
  [0x428a2f98, 0x71374491, 0xb5c0fbcf, 0xe9b5dba5, 0x3956c25b, 0x59f111f1, 0x923f82a4, 0xab1c5ed5,
   0xd807aa98, 0x12835b01, 0x243185be, 0x550c7dc3, 0x72be5d74, 0x80deb1fe, 0x9bdc06a7, 0xc19bf174,
   0xe49b69c1, 0xefbe4786, 0x0fc19dc6, 0x240ca1cc, 0x2de92c6f, 0x4a7484aa, 0x5cb0a9dc, 0x76f988da,
   0x983e5152, 0xa831c66d, 0xb00327c8, 0xbf597fc7, 0xc6e00bf3, 0xd5a79147, 0x06ca6351, 0x14292967,
   0x27b70a85, 0x2e1b2138, 0x4d2c6dfc, 0x53380d13, 0x650a7354, 0x766a0abb, 0x81c2c92e, 0x92722c85,
   0xa2bfe8a1, 0xa81a664b, 0xc24b8b70, 0xc76c51a3, 0xd192e819, 0xd6990624, 0xf40e3585, 0x106aa070,
   0x19a4c116, 0x1e376c08, 0x2748774c, 0x34b0bcb5, 0x391c0cb3, 0x4ed8aa4a, 0x5b9cca4f, 0x682e6ff3,
   0x748f82ee, 0x78a5636f, 0x84c87814, 0x8cc70208, 0x90befffa, 0xa4506ceb, 0xbef9a3f7, 0xc67178f2]

/-- The eight working registers / the chaining value. -/
structure State where
  a : Nat
  b : Nat
  c : Nat
  d : Nat
  e : Nat
  f : Nat
  g : Nat
  h : Nat
deriving Repr, DecidableEq

/-- The initial hash value. -/
def H0 : State :=
  ⟨0x6a09e667, 0xbb67ae85, 0x3c6ef372, 0xa54ff53a, 0x510e527f, 0x9b05688c, 0x1f83d9ab, 0x5be0cd19⟩

/-- Padding: a `0x80` byte, zero bytes up to 56 modulo 64, and the bit length of the
message as a 64-bit big-endian integer. -/
def pad (msg : List Nat) : List Nat :=
  let len := msg.length
  let zeros := (55 + 64 - len % 64) % 64
  let bits := (8 * len) % 2 ^ 64
  msg ++ [0x80] ++ List.replicate zeros 0 ++
    (List.range 8).map (fun i => (bits >>> (8 * (7 - i))) % 256)

/-- Big-endian 32-bit words of a byte sequence (four bytes per word). -/
def toWords : List Nat → List Nat
  | b0 :: b1 :: b2 :: b3 :: rest => (b0 * 2 ^ 24 + b1 * 2 ^ 16 + b2 * 2 ^ 8 + b3) :: toWords rest
  | _ => []

/-- Extend the message schedule by `n` further words. -/
def extend : Nat → List Nat → List Nat
  | 0, w => w
  | n + 1, w =>
    let t := w.length
    extend n (w ++ [w32 (smallSigma1 (w.getD (t - 2) 0) + w.getD (t - 7) 0
      + smallSigma0 (w.getD (t - 15) 0) + w.getD (t - 16) 0)])

/-- One round of the compression function. -/
def round (s : State) (kw : Nat × Nat) : State :=
  let t1 := w32 (s.h + bigSigma1 s.e + ch s.e s.f s.g + kw.1 + kw.2)
  let t2 := w32 (bigSigma0 s.a + maj s.a s.b s.c)
  ⟨w32 (t1 + t2), s.a, s.b, s.c, w32 (s.d + t1), s.e, s.f, s.g⟩

/-- Compression of one 16-word block into the chaining value. -/
def compress (hv : State) (block : List Nat) : State :=
  let s := (K.zip (extend 48 block)).foldl round hv
  ⟨w32 (hv.a + s.a), w32 (hv.b + s.b), w32 (hv.c + s.c), w32 (hv.d + s.d),
   w32 (hv.e + s.e), w32 (hv.f + s.f), w32 (hv.g + s.g), w32 (hv.h + s.h)⟩

/-- Process the schedule words block by block (`fuel` bounds the number of blocks). -/
def blocks : Nat → State → List Nat → State
  | 0, hv, _ => hv
  | fuel + 1, hv, ws =>
    if ws.length < 16 then hv else blocks fuel (compress hv (ws.take 16)) (ws.drop 16)

/-- The digest as eight 32-bit words. -/
def digestWords (msg : List Nat) : State :=
  let ws := toWords (pad msg)
  blocks ws.length H0 ws

/-- Eight hexadecimal digits of a 32-bit word. -/
def hexWord (w : Nat) : List Char :=
  [hexDigit (w / 2 ^ 28), hexDigit (w / 2 ^ 24), hexDigit (w / 2 ^ 20), hexDigit (w / 2 ^ 16),
   hexDigit (w / 2 ^ 12), hexDigit (w / 2 ^ 8), hexDigit (w / 2 ^ 4), hexDigit w]

/-- The value of `createHash('sha256').update(data).digest('hex')` for a byte sequence. -/
def hexDigest (msg : List Nat) : String :=
  let s := digestWords msg
  String.mk (hexWord s.a ++ hexWord s.b ++ hexWord s.c ++ hexWord s.d
    ++ hexWord s.e ++ hexWord s.f ++ hexWord s.g ++ hexWord s.h)

end Sha256

/-! ## Keccak-256, the digest behind `ethers.keccak256` -/

namespace Keccak

/-- Reduction to a 64-bit lane. -/
def w64 (x : Nat) : Nat := x % 2 ^ 64

/-- Rotate a 64-bit lane left by `n` bits. -/
def rotl (x n : Nat) : Nat := w64 ((x <<< n) ||| (x >>> (64 - n)))

/-- The 24 round constants. -/
def RC : List Nat :=
  [0x0000000000000001, 0x0000000000008082, 0x800000000000808A, 0x8000000080008000,
   0x000000000000808B, 0x0000000080000001, 0x8000000080008081, 0x8000000000008009,
   0x000000000000008A, 0x0000000000000088, 0x0000000080008009, 0x000000008000000A,
   0x000000008000808B, 0x800000000000008B, 0x8000000000008089, 0x8000000000008003,
   0x8000000000008002, 0x8000000000000080, 0x000000000000800A, 0x800000008000000A,
   0x8000000080008081, 0x8000000000008080, 0x0000000080000001, 0x8000000080008008]

/-- Rotation offsets of the lanes, lane `(x, y)` at index `x + 5 * y`. -/
def offsets : List Nat :=
  [0, 1, 62, 28, 27, 36, 44, 6, 55, 20, 3, 10, 43, 25, 39, 41, 45, 15, 21, 8, 18, 2, 61, 56, 14]

/-- Lane `(x, y)` of a state of 25 lanes, coordinates taken modulo 5. -/
def lane (a : List Nat) (x y : Nat) : Nat := a.getD (x % 5 + 5 * (y % 5)) 0

def theta (a : List Nat) : List Nat :=
  let c := fun x => lane a x 0 ^^^ lane a x 1 ^^^ lane a x 2 ^^^ lane a x 3 ^^^ lane a x 4
  let d := fun x => c (x + 4) ^^^ rotl (c (x + 1)) 1
  (List.range 25).map fun i => a.getD i 0 ^^^ d (i % 5)

/-- The steps rho and pi: lane `(x, y)`, rotated, moves to `(y, 2 * x + 3 * y)`. -/
def rhoPi (a : List Nat) : List Nat :=
  (List.range 25).map fun i =>
    let x := (i % 5 + 3 * (i / 5)) % 5
    let y := i % 5
    rotl (lane a x y) (offsets.getD (x + 5 * y) 0)

def chi (b : List Nat) : List Nat :=
  (List.range 25).map fun i =>
    let x := i % 5
    let y := i / 5
    lane b x y ^^^ (w64 (lane b (x + 1) y ^^^ (2 ^ 64 - 1)) &&& lane b (x + 2) y)

def iota (rc : Nat) (a : List Nat) : List Nat :=
  (a.getD 0 0 ^^^ rc) :: a.drop 1

/-- One round of the permutation. -/
def round (a : List Nat) (rc : Nat) : List Nat := iota rc (chi (rhoPi (theta a)))

/-- The permutation Keccak-f[1600]. -/
def keccakF (a : List Nat) : List Nat := RC.foldl round a

/-- Little-endian value of a byte sequence. -/
def laneOfBytes (bs : List Nat) : Nat := bs.foldr (fun b acc => b + 256 * acc) 0

/-- The first `n` lanes of a byte sequence (eight bytes per lane). -/
def lanesOfBytes : Nat → List Nat → List Nat
  | 0, _ => []
  | n + 1, bs => laneOfBytes (bs.take 8) :: lanesOfBytes n (bs.drop 8)

/-- Padding of Keccak-256 to a multiple of the rate of 136 bytes: bit `1`, zeros, bit `1`. -/
def pad (msg : List Nat) : List Nat :=
  let q := 136 - msg.length % 136
  if q = 1 then msg ++ [0x81] else msg ++ [0x01] ++ List.replicate (q - 2) 0 ++ [0x80]

/-- Absorb the padded message, 136 bytes at a time (`fuel` bounds the number of blocks). -/
def absorb : Nat → List Nat → List Nat → List Nat
  | 0, st, _ => st
  | fuel + 1, st, bs =>
    if bs.length < 136 then st
    else
      let ls := lanesOfBytes 17 (bs.take 136)
      absorb fuel (keccakF ((List.range 25).map fun i => st.getD i 0 ^^^ ls.getD i 0))
        (bs.drop 136)

/-- Eight bytes of a lane, least significant first. -/
def bytesOfLane (l : Nat) : List Nat := (List.range 8).map fun j => (l >>> (8 * j)) % 256

/-- The 32 bytes of the digest. -/
def digestBytes (msg : List Nat) : List Nat :=
  let padded := pad msg
  let st := absorb padded.length (List.replicate 25 0) padded
  bytesOfLane (st.getD 0 0) ++ bytesOfLane (st.getD 1 0) ++ bytesOfLane (st.getD 2 0)
    ++ bytesOfLane (st.getD 3 0)

end Keccak

/-- Call `ethers.keccak256(bytes)`: the digest as a hex string with a `0x` head. -/
def keccak256 (bytes : List Nat) : String :=
  "0x" ++ String.mk ((Keccak.digestBytes bytes).foldr (fun b acc => hexByte b ++ acc) [])

/-! ## `ZeroGClient` (0g-client.ts) -/

/-- Source `InferenceRequest`. -/
structure InferenceRequest where
  prompt : String
  model : Option String
  temperature : Option ℚ
  maxTokens : Option Nat

/-- The `usage` object of an `InferenceResponse`. -/
structure Usage where
  promptTokens : Nat
  completionTokens : Nat
  totalTokens : Nat
deriving Repr, DecidableEq

/-- Source `InferenceResponse`. -/
structure InferenceResponse where
  text : String
  model : String
  usage : Usage
  proof : String
deriving Repr, DecidableEq

namespace ZeroGClient

/-- Lower-casing of one character: ASCII letters by the rule below; the mapping of the
characters outside ASCII is the Unicode case table of the JavaScript engine, which is not
part of the repository and is taken as the parameter `lowerTable` (a character may map to
several, and the table is applied character by character). -/
def lowerChar (lowerTable : Char → List Char) (c : Char) : List Char :=
  if c.toNat < 128 then [c.toLower] else lowerTable c

def lowerChars (lowerTable : Char → List Char) : List Char → List Char
  | [] => []
  | c :: cs => lowerChar lowerTable c ++ lowerChars lowerTable cs

/-- JavaScript `s.toLowerCase()`. -/
def toLowerCase (lowerTable : Char → List Char) (s : String) : String :=
  String.mk (lowerChars lowerTable s.toList)

/-- The summary of recent proposals (0g-client.ts, lines 68-86). -/
def proposalsSummary : String :=
  String.intercalate "\n"
    ["Based on the recent DAO proposals, here's a summary:",
     "",
     "**Proposal #123: Tokenomics Update**",
     "- Increase staking rewards from 5% to 7% APY",
     "- Reduce inflation rate by 2%",
     "- Status: Voting ends in 3 days",
     "- Current votes: 67% FOR, 33% AGAINST",
     "",
     "**Proposal #124: Treasury Diversification**",
     "- Allocate 20% of treasury to DeFi yield farming",
     "- Invest in blue-chip NFTs for long-term value",
     "- Status: Passed with 89% approval",
     "",
     "**Proposal #125: Governance Token Distribution**",
     "- Airdrop 1M tokens to active community members",
     "- Vesting period: 12 months linear",
     "- Status: Under discussion",
     "",
     "These proposals aim to strengthen the DAO's financial position while rewarding community participation."]

/-- The tokenomics overview (0g-client.ts, lines 92-116). -/
def tokenomicsOverview : String :=
  String.intercalate "\n"
    ["**DAO Tokenomics Overview:**",
     "",
     "**Token Supply:** 100M tokens total",
     "- 40% Community rewards & staking",
     "- 25% Treasury reserves",
     "- 20% Team & advisors (4-year vesting)",
     "- 15% Liquidity & partnerships",
     "",
     "**Staking Mechanism:**",
     "- Base staking: 5% APY",
     "- Governance staking: +2% APY bonus",
     "- Long-term staking (12+ months): +1% APY bonus",
     "",
     "**Governance Power:**",
     "- 1 token = 1 vote",
     "- Minimum 1000 tokens to create proposals",
     "- Quorum: 10% of circulating supply",
     "- Execution threshold: 51% majority",
     "",
     "**Economic Model:**",
     "- Deflationary: 2% annual burn rate",
     "- Revenue sharing: 30% of protocol fees distributed to stakers",
     "- Buyback program: 20% of profits used for token buybacks",
     "",
     "This tokenomics design incentivizes long-term participation while maintaining decentralized governance."]

/-- The description of the voting process (0g-client.ts, lines 122-151). -/
def votingProcess : String :=
  String.intercalate "\n"
    ["**DAO Voting Process:**",
     "",
     "**How to Vote:**",
     "1. Connect your wallet with governance tokens",
     "2. Navigate to the proposals section",
     "3. Review proposal details and discussion",
     "4. Cast your vote: FOR, AGAINST, or ABSTAIN",
     "5. Confirm transaction (gas fees apply)",
     "",
     "**Voting Requirements:**",
     "- Minimum 100 tokens to vote",
     "- Voting power = token balance",
     "- Votes are weighted by token amount",
     "- Can change vote until deadline",
     "",
     "**Proposal Lifecycle:**",
     "1. **Draft** (7 days): Community discussion",
     "2. **Active** (5 days): Formal voting period",
     "3. **Execution** (24 hours): Automatic execution if passed",
     "4. **Completed**: Implementation tracked",
     "",
     "**Current Active Proposals:**",
     "- Proposal #123: Tokenomics Update (3 days left)",
     "- Proposal #126: Partnership with DeFi Protocol (1 day left)",
     "",
     "**Best Practices:**",
     "- Read full proposal before voting",
     "- Consider long-term DAO health",
     "- Participate in discussions",
     "- Monitor execution after voting"]

/-- The treasury status (0g-client.ts, lines 157-185). -/
def treasuryStatus : String :=
  String.intercalate "\n"
    ["**DAO Treasury Status:**",
     "",
     "**Current Holdings:** $2.4M total value",
     "- ETH: 800 ETH ($1.6M)",
     "- USDC: 500,000 ($500K)",
     "- Governance Tokens: 2M tokens ($300K)",
     "",
     "**Monthly Revenue:** $45K",
     "- Protocol fees: $30K",
     "- Staking rewards: $10K",
     "- Partnership revenue: $5K",
     "",
     "**Expenditure Categories:**",
     "- Development: 40% ($18K/month)",
     "- Marketing: 25% ($11.25K/month)",
     "- Operations: 20% ($9K/month)",
     "- Community rewards: 15% ($6.75K/month)",
     "",
     "**Recent Transactions:**",
     "- +$50K: Partnership deal with DeFi protocol",
     "- -$15K: Development team compensation",
     "- -$8K: Marketing campaign launch",
     "- +$12K: Staking rewards distribution",
     "",
     "**Treasury Management:**",
     "- Diversified across multiple assets",
     "- Regular audits and transparency reports",
     "- Community-controlled spending limits",
     "- Emergency fund: 20% of total treasury"]

/-- The default help response (0g-client.ts, lines 191-205). -/
def defaultHelp : String :=
  String.intercalate "\n"
    ["I'm your DAO Governance Assistant! I can help you with:",
     "",
     "**Available Commands:**",
     "- \"Summarize proposals\" - Get overview of recent governance proposals",
     "- \"Explain tokenomics\" - Learn about our token economics",
     "- \"How does voting work?\" - Understand the voting process",
     "- \"Treasury status\" - Check DAO financial health",
     "",
     "**Quick Stats:**",
     "- Active proposals: 2",
     "- Total token holders: 1,247",
     "- Treasury value: $2.4M",
     "- Voting participation: 34%",
     "",
     "Feel free to ask me anything about DAO governance, voting procedures, or current proposals!"]

/-- Source `generateMockResponse(prompt)`; the result is the `text` of the returned object. -/
def generateMockResponse (lowerTable : Char → List Char) (prompt : String) : String :=
  let lowerPrompt := toLowerCase lowerTable prompt
  if includes lowerPrompt "summarize" && includes lowerPrompt "proposal" then
    proposalsSummary
  else if includes lowerPrompt "tokenomics" || includes lowerPrompt "token" then
    tokenomicsOverview
  else if includes lowerPrompt "voting" || includes lowerPrompt "vote" then
    votingProcess
  else if includes lowerPrompt "treasury" || includes lowerPrompt "fund" then
    treasuryStatus
  else
    defaultHelp

/-- Source `generateProof(prompt, response)`; `now` is the value read from `Date.now()`. -/
def generateProof (prompt response : String) (now : Nat) : String :=
  let data := prompt ++ response ++ numberToString now
  let hash := Sha256.hexDigest (toUtf8Bytes data)
  "0g-proof-" ++ hash

/-- Source `generateResponse(request)`; `now` is the clock value read by `generateProof`. -/
def generateResponse (lowerTable : Char → List Char) (now : Nat) (request : InferenceRequest) :
    InferenceResponse :=
  let mockResponse := generateMockResponse lowerTable request.prompt
  let proof := generateProof request.prompt mockResponse now
  { text := mockResponse
    model := "0g-governance-assistant-v1"
    usage :=
      { promptTokens := jsLength request.prompt / 4
        completionTokens := jsLength mockResponse / 4
        totalTokens := (jsLength request.prompt + jsLength mockResponse) / 4 }
    proof := proof }

/-- Source `verifyProof(proof, prompt, response)`. -/
def verifyProof (proof prompt response : String) : Bool :=
  startsWith proof "0g-proof-" && jsLength proof == 72

end ZeroGClient

/-! ## JavaScript numbers (IEEE 754 doubles) -/

/-- The natural number nearest to the fraction `a / d`, a tie going to the even one. -/
def roundHalfEven (a d : Nat) : Nat :=
  let t := a / d
  let r := a % d
  if 2 * r < d then t else if d < 2 * r then t + 1 else t + t % 2

/-- For a fraction `a / d` below `2^53`: the least `k`, from `k` on and at most `fuel`
further, with `2^52 ≤ a / d * 2^k`, the number of binary places a double keeps of it (at
most 1074, where the subnormal doubles end). -/
def binaryScale (a d : Nat) : Nat → Nat → Nat
  | 0, k => k
  | fuel + 1, k => if 2 ^ 52 * d ≤ a * 2 ^ k then k else binaryScale a d fuel (k + 1)

/-- For a fraction `a / d` of at least `2^53`: the least `s` with `a / d < 2^(53 + s)`, the
number of low bits a double drops of it. -/
def binaryExcess (a d : Nat) : Nat → Nat → Nat
  | 0, s => s
  | fuel + 1, s => if a < 2 ^ 53 * d * 2 ^ s then s else binaryExcess a d fuel (s + 1)

/-- The double nearest to the fraction `a / d` (round to nearest, ties to even, 53
significant bits), as a fraction `(numerator, denominator)`.  Fractions of `2^1024` and
more, which round to `Infinity`, do not occur: the values converted are products below
`2^20` and `uint256` integers. -/
def nearestDouble (a d : Nat) : Nat × Nat :=
  if a < 2 ^ 53 * d then
    let k := binaryScale a d 1074 0
    (roundHalfEven (a * 2 ^ k) d, 2 ^ k)
  else
    let s := binaryExcess a d 971 0
    (roundHalfEven a (d * 2 ^ s) * 2 ^ s, 1)

/-- JavaScript `Number(n)` for a `bigint` `n ≥ 0`: the double nearest to `n`, which is an
integer. -/
def jsNumber (n : Nat) : Nat := (nearestDouble n 1).1 / (nearestDouble n 1).2

/-! ## The ledger seen from the backend (index.ts, lines 21-36) -/

/-- A decoded `RequestCreated(requestId, promptHash, requester)` event; `args[0]` of the
source is `requestId`, a `uint256` that ethers hands over as a `bigint`. -/
structure LedgerEvent where
  requestId : Nat
  promptHash : String
  requester : String
deriving Repr, DecidableEq

/-- The receipt of a confirmed transaction: the events that transaction emitted. -/
structure Receipt where
  logs : List LedgerEvent
deriving Repr, DecidableEq

/-- A sent transaction `tx`; `wait` is the outcome of `await tx.wait()`. -/
structure Tx where
  wait : Except String Receipt

/-- The `contract` handle of the backend, as the outcomes of the calls one request makes:
`createRequest(promptHash)`, `queryFilter(filters.RequestCreated())` (the whole event log
at the time of the query) and `submitAnswer(requestId, answer, proof)`. -/
structure Contract where
  createRequest : String → Except String Tx
  queryFilter : Except String (List LedgerEvent)
  submitAnswer : Nat → String → List Nat → Except String Tx

/-- The value of one `Math.random()` call, the fraction `num / den` of `[0, 1)`. -/
structure Rand where
  num : Nat
  den : Nat
  lt : num < den

/-- The fraction is a double: `m / 2^e` with a significand `m` below `2^53` and at most
1074 binary places.  Every value `Math.random()` returns is one. -/
def Rand.IsDouble (r : Rand) : Prop :=
  ∃ m e : Nat, m < 2 ^ 53 ∧ e ≤ 1074 ∧ r.num * 2 ^ e = m * r.den

/-- Expression `Math.floor(Math.random() * 1000000)`: the product is the double nearest
to the exact product, as IEEE 754 multiplication gives it, and `Math.floor` takes its
integer part. -/
def randomRequestId (r : Rand) : Nat :=
  (nearestDouble (r.num * 1000000) r.den).1 / (nearestDouble (r.num * 1000000) r.den).2

/-! ## The chat endpoint (index.ts, lines 149-232) -/

/-- The value of the `prompt` property of a parsed JSON body (`undefined` when the property
is missing; `object` stands for objects and arrays). -/
inductive JsValue where
  | undefined
  | null
  | boolean (b : Bool)
  | number (x : ℚ)
  | string (s : String)
  | object
deriving Repr, DecidableEq

/-- JavaScript truthiness (`!!v`). -/
def truthy : JsValue → Bool
  | .undefined => false
  | .null => false
  | .boolean b => b
  | .number x => x != 0
  | .string s => jsLength s != 0
  | .object => true

/-- JavaScript `typeof v`. -/
def typeOf : JsValue → String
  | .undefined => "undefined"
  | .null => "object"
  | .boolean _ => "boolean"
  | .number _ => "number"
  | .string _ => "string"
  | .object => "object"

/-- The string a value of type string holds. -/
def stringOf : JsValue → String
  | .string s => s
  | _ => ""

/-- What a handler does to the outside world, in order. -/
inductive Effect where
  | keccak256 (prompt : String)
  | createRequest (promptHash : String)
  | txWait
  | queryFilter
  | mathRandom
  | generateResponse (prompt : String)
  | submitAnswer (requestId : Nat) (answer : String) (proof : List Nat)
deriving Repr, DecidableEq

/-- The body of a successful chat response; `timestamp` is the clock reading that
`new Date().toISOString()` renders. -/
structure ChatResponse where
  requestId : Nat
  text : String
  proof : String
  model : String
  usage : Usage
  timestamp : Nat
  verifiable : Bool
deriving Repr, DecidableEq

/-- The JSON body of a response of the chat endpoint. -/
inductive ResponseBody where
  | chat (r : ChatResponse)
  | error (error : String) (message : Option String)
deriving Repr, DecidableEq

/-- An HTTP response: `res.status(status).json(body)`, status 200 when none is set. -/
structure HttpResponse where
  status : Nat
  body : ResponseBody
deriving Repr, DecidableEq

/-- The `try` block of lines 169-179: send `createRequest`, wait for its confirmation,
query the `RequestCreated` events and read the id of the last one, converted by
`Number(...)`.  The result is the id, or the error thrown, and the ledger calls made. -/
def createRequestOnChain (contract : Contract) (promptHash : String) :
    Except String Nat × List Effect :=
  match contract.createRequest promptHash with
  | .error e => (.error e, [.createRequest promptHash])
  | .ok tx =>
    match tx.wait with
    | .error e => (.error e, [.createRequest promptHash, .txWait])
    | .ok _ =>
      match contract.queryFilter with
      | .error e => (.error e, [.createRequest promptHash, .txWait, .queryFilter])
      | .ok events =>
        match events.get? (events.length - 1) with
        | none =>
          (.error "Cannot read properties of undefined (reading 'args')",
            [.createRequest promptHash, .txWait, .queryFilter])
        | some latestEvent =>
          (.ok (jsNumber latestEvent.requestId),
            [.createRequest promptHash, .txWait, .queryFilter])

/-- Lines 165-189: the request id of the query and the calls made to obtain it. -/
def obtainRequestId (contract : Option Contract) (random : Rand) (promptHash : String) :
    Nat × List Effect :=
  match contract with
  | some c =>
    match createRequestOnChain c promptHash with
    | (.ok requestId, effects) => (requestId, effects)
    | (.error _, effects) => (randomRequestId random, effects ++ [.mathRandom])
  | none => (randomRequestId random, [.mathRandom])

/-- Lines 202-212: submit the answer when a contract handle exists; errors are caught. -/
def submitAnswerOnChain (contract : Option Contract) (requestId : Nat)
    (aiResponse : InferenceResponse) : List Effect :=
  match contract with
  | some c =>
    let proofBytes := toUtf8Bytes aiResponse.proof
    match c.submitAnswer requestId aiResponse.text proofBytes with
    | .error _ => [.submitAnswer requestId aiResponse.text proofBytes]
    | .ok tx =>
      match tx.wait with
      | .error _ => [.submitAnswer requestId aiResponse.text proofBytes, .txWait]
      | .ok _ => [.submitAnswer requestId aiResponse.text proofBytes, .txWait]
  | none => []

/-- Lines 151-163 of the handler of `POST /api/chat` for a `prompt` that is a string as
JavaScript holds it, by its UTF-16 code units, which may hold unpaired surrogates (the
JSON text `"\ud800"` is such a string): the response with which the handler ends there
(400 for the empty string, 500 from the outer `catch` when `ethers.toUtf8Bytes` throws),
or the prompt hash with which it goes on. -/
def chatHandlerUpToHash (units : List Nat) : Except HttpResponse String :=
  if units.length == 0 then
    .error ⟨400, .error "Prompt is required and must be a string" none⟩
  else
    match ethersToUtf8Bytes units with
    | .error message => .error ⟨500, .error "Internal server error" (some message)⟩
    | .ok bytes => .ok (keccak256 bytes)

/-- The handler of `POST /api/chat`.  `contract` is the module-level contract handle
(`none` in mock mode), `generate` the call `zeroGClient.generateResponse`, `random` the
value `Math.random()` returns when it is called, `clock` the time of the response and
`prompt` the `prompt` property of the request body (a string value being a string without
unpaired surrogates; for the others see `chatHandlerUpToHash`).  The result is the
response and the effects performed. -/
def chatHandler (contract : Option Contract)
    (generate : InferenceRequest → Except String InferenceResponse)
    (random : Rand) (clock : Nat) (prompt : JsValue) : HttpResponse × List Effect :=
  if !truthy prompt || typeOf prompt != "string" then
    (⟨400, .error "Prompt is required and must be a string" none⟩, [])
  else
    let prompt := stringOf prompt
    match ethersToUtf8Bytes (utf16Units prompt.toList) with
    | .error message => (⟨500, .error "Internal server error" (some message)⟩, [])
    | .ok bytes =>
      let promptHash := keccak256 bytes
      let (requestId, ledgerEffects) := obtainRequestId contract random promptHash
      match generate ⟨prompt, some "0g-governance-assistant-v1", some 0.7, some 1000⟩ with
      | .error message =>
        (⟨500, .error "Internal server error" (some message)⟩,
          [.keccak256 prompt] ++ ledgerEffects ++ [.generateResponse prompt])
      | .ok aiResponse =>
        (⟨200, .chat
            { requestId := requestId
              text := aiResponse.text
              proof := aiResponse.proof
              model := aiResponse.model
              usage := aiResponse.usage
              timestamp := clock
              verifiable := contract.isSome }⟩,
          [.keccak256 prompt] ++ ledgerEffects ++ [.generateResponse prompt]
            ++ submitAnswerOnChain contract requestId aiResponse)

/-- The generation collaborator of the running backend: `zeroGClient.generateResponse`,
which reads the clock once and does not throw. -/
def zeroGGenerate (lowerTable : Char → List Char) (now : Nat) (request : InferenceRequest) :
    Except String InferenceResponse :=
  .ok (ZeroGClient.generateResponse lowerTable now request)

/-- The request id of a response, when it carries one. -/
def HttpResponse.requestId? (r : HttpResponse) : Option Nat :=
  match r.body with
  | .chat c => some c.requestId
  | .error _ _ => none

/-- The `verifiable` field of a response, when it carries one. -/
def HttpResponse.verifiable? (r : HttpResponse) : Option Bool :=
  match r.body with
  | .chat c => some c.verifiable
  | .error _ _ => none

/-- A contract handle all of whose calls throw. -/
def rejectingContract : Contract :=
  { createRequest := fun _ => .error "transaction rejected"
    queryFilter := .error "could not query events"
    submitAnswer := fun _ _ _ => .error "transaction rejected" }

/-- A contract handle all of whose transactions are confirmed: the ledger assigns
`assignedId` to the request that `createRequest` creates (the event in the receipt), and
`events` is the `RequestCreated` log at the time of the query. -/
def confirmingContract (assignedId : Nat) (events : List LedgerEvent) : Contract :=
  { createRequest := fun promptHash => .ok ⟨.ok ⟨[⟨assignedId, promptHash, "0xf39f"⟩]⟩⟩
    queryFilter := .ok events
    submitAnswer := fun _ _ _ => .ok ⟨.ok ⟨[]⟩⟩ }

/-- The `RequestCreated` log in which the request of id 5, for the prompt
"Treasury status", is followed by a request of another requester, id 6. -/
def racedLog : List LedgerEvent :=
  [⟨4, keccak256 (toUtf8Bytes "Explain tokenomics"), "0xf39f"⟩,
   ⟨5, keccak256 (toUtf8Bytes "Treasury status"), "0xf39f"⟩,
   ⟨6, keccak256 (toUtf8Bytes "Summarize proposals"), "0x7099"⟩]

/-- Modelled from the spec: the ledger is append-only and assigns request ids
monotonically.  The event log `later` extends the log `earlier` by at least one event, and
the ids along `later` strictly increase. -/
def LedgerLogExtends (earlier later : List LedgerEvent) : Prop :=
  (∃ extra : List LedgerEvent, extra ≠ [] ∧ later = earlier ++ extra) ∧
    (later.map LedgerEvent.requestId).Pairwise (fun a b => a < b)

/-! ## Connection state and its initialisation (index.ts, lines 21-66) -/

/-- The environment variables `initializeBlockchain` reads (`none`: not set). -/
structure ProcessEnv where
  SEPOLIA_RPC_URL : Option String
  PRIVATE_KEY : Option String
  CHATBOT_VERIFIER_ADDRESS : Option String

/-- An `ethers.JsonRpcProvider`. -/
structure Provider where
  url : String
deriving Repr, DecidableEq

/-- An `ethers.Wallet`. -/
structure Wallet where
  privateKey : String
  provider : Provider
deriving Repr, DecidableEq

/-- An `ethers.Contract` built on `CONTRACT_ABI`: the object the module variable
`contract` holds. -/
structure ContractHandle where
  address : String
  signer : Wallet
deriving Repr, DecidableEq

/-- The three constructors of `ethers` that `initializeBlockchain` calls, each of which
may throw. -/
structure Ethers where
  newJsonRpcProvider : String → Except String Provider
  newWallet : String → Provider → Except String Wallet
  newContract : String → Wallet → Except String ContractHandle

/-- The module variables `provider`, `wallet` and `contract` (`none`: still undefined). -/
structure ServerState where
  provider : Option Provider
  wallet : Option Wallet
  contract : Option ContractHandle
deriving Repr, DecidableEq

/-- The module variables when the module has been loaded: all undefined. -/
def initialState : ServerState := ⟨none, none, none⟩

/-- The connection state of the spec, read off the `contract` variable. -/
inductive ConnectionState where
  | connected
  | mockMode
deriving Repr, DecidableEq

/-- The test `contract ? ... : ...` that every handler applies. -/
def ServerState.connection (st : ServerState) : ConnectionState :=
  if st.contract.isSome then .connected else .mockMode

/-- Truthiness of the value of an environment variable: set and not empty. -/
def envTruthy : Option String → Bool
  | none => false
  | some s => jsLength s != 0

/-- The string an environment variable holds (the empty string when it is not set). -/
def envValue : Option String → String
  | none => ""
  | some s => s

/-- Expression `process.env.X || fallback`. -/
def envOr (value : Option String) (fallback : String) : String :=
  match value with
  | none => fallback
  | some s => if jsLength s != 0 then s else fallback

/-- The `try` block of `initializeBlockchain` (lines 41-61): the result is `.error e` when
it throws `e`, together with the module variables as they are at that point. -/
def initializeBody (env : ProcessEnv) (ethers : Ethers) (st : ServerState) :
    Except String Unit × ServerState :=
  let rpcUrl := envOr env.SEPOLIA_RPC_URL "https://evmrpc-testnet.0g.ai"
  let privateKey := env.PRIVATE_KEY
  let contractAddress :=
    envOr env.CHATBOT_VERIFIER_ADDRESS "0x0B1eB634c9F6Cf22B831ca5B7B66E8CBeD3BfC78"
  if !envTruthy privateKey then
    (.ok (), st)
  else if jsLength contractAddress == 0 then
    (.ok (), st)
  else
    match ethers.newJsonRpcProvider rpcUrl with
    | .error e => (.error e, st)
    | .ok provider =>
      match ethers.newWallet (envValue privateKey) provider with
      | .error e => (.error e, { st with provider := some provider })
      | .ok wallet =>
        match ethers.newContract contractAddress wallet with
        | .error e => (.error e, { st with provider := some provider, wallet := some wallet })
        | .ok contract =>
          (.ok (), { provider := some provider, wallet := some wallet, contract := some contract })

/-- Source `initializeBlockchain()`: the `try` block and the `catch` that logs the error.
The result is the outcome for the caller and the module variables afterwards. -/
def initializeBlockchain (env : ProcessEnv) (ethers : Ethers) (st : ServerState) :
    Except String Unit × ServerState :=
  match initializeBody env ethers st with
  | (.ok (), st1) => (.ok (), st1)
  | (.error _, st1) => (.ok (), st1)

/-- An `ethers` all of whose constructors succeed. -/
def workingEthers : Ethers :=
  { newJsonRpcProvider := fun url => .ok ⟨url⟩
    newWallet := fun key provider => .ok ⟨key, provider⟩
    newContract := fun address wallet => .ok ⟨address, wallet⟩ }

/-- An `ethers` whose `Wallet` constructor rejects every key. -/
def strictEthers : Ethers :=
  { newJsonRpcProvider := fun url => .ok ⟨url⟩
    newWallet := fun _ _ => .error "invalid private key"
    newContract := fun address wallet => .ok ⟨address, wallet⟩ }

/-! ## The other endpoints (index.ts, lines 68-144 and 234-302) -/

/-- An entry of `mockProposals`; `endTime` is a time in milliseconds. -/
structure Proposal where
  id : Nat
  title : String
  description : String
  status : String
  votesFor : Nat
  votesAgainst : Nat
  endTime : Int
  proposer : String
deriving Repr, DecidableEq

/-- Source `mockProposals`; `loaded` is the value of `Date.now()` while the module loads. -/
def mockProposals (loaded : Int) : List Proposal :=
  [ { id := 123, title := "Tokenomics Update"
      description := "Increase staking rewards from 5% to 7% APY and reduce inflation rate by 2%"
      status := "Active", votesFor := 67, votesAgainst := 33
      endTime := loaded + 3 * 24 * 60 * 60 * 1000, proposer := "0x1234...5678" },
    { id := 124, title := "Treasury Diversification"
      description := "Allocate 20% of treasury to DeFi yield farming and invest in blue-chip NFTs"
      status := "Passed", votesFor := 89, votesAgainst := 11
      endTime := loaded - 1 * 24 * 60 * 60 * 1000, proposer := "0x2345...6789" },
    { id := 125, title := "Governance Token Distribution"
      description := "Airdrop 1M tokens to active community members with 12-month linear vesting"
      status := "Draft", votesFor := 0, votesAgainst := 0
      endTime := loaded + 7 * 24 * 60 * 60 * 1000, proposer := "0x3456...7890" },
    { id := 126, title := "Partnership with DeFi Protocol"
      description :=
        "Establish strategic partnership with leading DeFi protocol for cross-chain integration"
      status := "Active", votesFor := 45, votesAgainst := 55
      endTime := loaded + 1 * 24 * 60 * 60 * 1000, proposer := "0x4567...8901" },
    { id := 127, title := "Community Rewards Program"
      description :=
        "Launch comprehensive rewards program for active contributors and early adopters"
      status := "Completed", votesFor := 92, votesAgainst := 8
      endTime := loaded - 5 * 24 * 60 * 60 * 1000, proposer := "0x5678...9012" } ]

/-- The tuple `getRequest(requestId)` returns. -/
structure RequestRecord where
  promptHash : String
  requester : String
  timestamp : Nat
  answered : Bool
deriving Repr, DecidableEq

/-- The tuple `getAnswer(requestId)` returns. -/
structure AnswerRecord where
  text : String
  proof : String
  submitter : String
  timestamp : Nat
  verified : Bool
deriving Repr, DecidableEq

/-- The read-only calls on the `contract` handle, as the outcomes they have during one
request.  A request id is the value of `parseInt` (`none`: `NaN`) or a value of the body. -/
structure LedgerReads where
  getRequest : Option Int → Except String RequestRecord
  getAnswer : Option Int → Except String AnswerRecord
  verifySignature : JsValue → JsValue → Except String Bool

/-- The ledger calls of the read endpoints, in order. -/
inductive ReadEffect where
  | getRequest (requestId : Option Int)
  | getAnswer (requestId : Option Int)
  | verifySignature (requestId signature : JsValue)
deriving Repr, DecidableEq

/-- The JSON bodies of the endpoints other than the chat endpoint. -/
inductive ReadBody where
  | health (status : String) (timestamp : Nat) (blockchain : String)
  | proposals (proposals : List Proposal) (total active : Nat)
  | details (requestId : Option Int) (request : RequestRecord) (answer : AnswerRecord)
  | verified (requestId : JsValue) (verified : Bool) (timestamp : Nat)
  | error (error : String)
deriving Repr, DecidableEq

/-- An HTTP response of the endpoints other than the chat endpoint. -/
structure ReadResponse where
  status : Nat
  body : ReadBody
deriving Repr, DecidableEq

/-- The handler of `GET /health` (lines 127-133). -/
def healthHandler (contract : Option ContractHandle) (clock : Nat) : ReadResponse :=
  ⟨200, .health "healthy" clock (if contract.isSome then "connected" else "mock")⟩

/-- The handler of `GET /api/proposals` (lines 138-144). -/
def proposalsHandler (loaded : Int) : ReadResponse :=
  ⟨200, .proposals (mockProposals loaded) (mockProposals loaded).length
    ((mockProposals loaded).filter (fun p => p.status == "Active")).length⟩

/-- The handler of `GET /api/request/:requestId` (lines 237-273).  `parseInt` is the
JavaScript function of that name, `contract` the contract handle (`none` in mock mode) with
the outcomes of its calls, `param` the path parameter. -/
def requestHandler (parseInt : String → Option Int) (contract : Option LedgerReads)
    (param : String) : ReadResponse × List ReadEffect :=
  let requestId := parseInt param
  match contract with
  | none => (⟨400, .error "Blockchain not connected"⟩, [])
  | some c =>
    match c.getRequest requestId with
    | .error _ => (⟨500, .error "Failed to fetch request details"⟩, [.getRequest requestId])
    | .ok request =>
      match c.getAnswer requestId with
      | .error _ =>
        (⟨500, .error "Failed to fetch request details"⟩,
          [.getRequest requestId, .getAnswer requestId])
      | .ok answer =>
        (⟨200, .details requestId request answer⟩,
          [.getRequest requestId, .getAnswer requestId])

/-- The handler of `POST /api/verify` (lines 278-302); `requestId` and `signature` are the
properties of those names of the request body. -/
def verifyHandler (contract : Option LedgerReads) (clock : Nat)
    (requestId signature : JsValue) : ReadResponse × List ReadEffect :=
  match contract with
  | none => (⟨400, .error "Blockchain not connected"⟩, [])
  | some c =>
    match c.verifySignature requestId signature with
    | .error _ =>
      (⟨500, .error "Failed to verify signature"⟩, [.verifySignature requestId signature])
    | .ok isValid =>
      (⟨200, .verified requestId isValid clock⟩, [.verifySignature requestId signature])

/-- A request to one of the five routes. -/
inductive Request where
  | health
  | proposals
  | chat (prompt : JsValue)
  | request (param : String)
  | verify (requestId signature : JsValue)

/-- What the outside world does during one request: the outcomes of the ledger calls,
the generation collaborator, the random source and the clock. -/
structure RequestEnv where
  ledger : Contract
  reads : LedgerReads
  generate : InferenceRequest → Except String InferenceResponse
  random : Rand
  clock : Nat

/-- The response to a request. -/
inductive Reply where
  | chat (r : HttpResponse)
  | read (r : ReadResponse)

/-- The server handling one request: the route's handler runs against the module
variables `st`; the result is the response and the module variables afterwards. -/
def serve (parseInt : String → Option Int) (loaded : Int) (st : ServerState)
    (env : RequestEnv) : Request → Reply × ServerState
  | .health => (.read (healthHandler st.contract env.clock), st)
  | .proposals => (.read (proposalsHandler loaded), st)
  | .chat prompt =>
    (.chat (chatHandler (st.contract.map fun _ => env.ledger) env.generate env.random
      env.clock prompt).1, st)
  | .request param =>
    (.read (requestHandler parseInt (st.contract.map fun _ => env.reads) param).1, st)
  | .verify requestId signature =>
    (.read (verifyHandler (st.contract.map fun _ => env.reads) env.clock requestId
      signature).1, st)

/-- The server handling a sequence of requests, one after the other. -/
def serveAll (parseInt : String → Option Int) (loaded : Int) :
    ServerState → List (RequestEnv × Request) → List Reply × ServerState
  | st, [] => ([], st)
  | st, (env, req) :: rest =>
    let (reply, st1) := serve parseInt loaded st env req
    let (replies, st2) := serveAll parseInt loaded st1 rest
    (reply :: replies, st2)

/-- Is the effect a call of `submitAnswer`? -/
def Effect.isSubmitAnswer : Effect → Bool
  | .submitAnswer _ _ _ => true
  | _ => false

/-- Is the effect a ledger operation (a contract call, a confirmation wait, a log query)? -/
def Effect.isLedgerCall : Effect → Bool
  | .createRequest _ => true
  | .txWait => true
  | .queryFilter => true
  | .submitAnswer _ _ _ => true
  | _ => false

/-- A generation collaborator that throws on every request. -/
def failingGenerate (_request : InferenceRequest) : Except String InferenceResponse :=
  .error "inference network unavailable"

/-- Ledger reads that all succeed. -/
def answeringReads : LedgerReads :=
  { getRequest := fun _ => .ok ⟨"0xaa", "0xf39f", 1700000000, true⟩
    getAnswer := fun _ => .ok ⟨"text", "0x3067", "0xf39f", 1700000001, false⟩
    verifySignature := fun _ _ => .ok true }

/-- Ledger reads that all throw. -/
def throwingReads : LedgerReads :=
  { getRequest := fun _ => .error "call revert exception"
    getAnswer := fun _ => .error "call revert exception"
    verifySignature := fun _ _ => .error "invalid BytesLike value" }

/-! ## Lemmas on strings and code units -/

theorem utf16Units_append (a b : List Char) :
    utf16Units (a ++ b) = utf16Units a ++ utf16Units b := by
  induction a with
  | nil => rfl
  | cons c cs ih => simp [utf16Units, ih]

theorem jsLength_append (a b : String) : jsLength (a ++ b) = jsLength a + jsLength b := by
  simp [jsLength, utf16Units_append]

theorem char_eq_of_toNat_eq {c d : Char} (h : c.toNat = d.toNat) : c = d := by
  rw [← Char.ofNat_toNat c, ← Char.ofNat_toNat d, h]

theorem utf16Units_length_of_bmp (l : List Char) (hl : ∀ c ∈ l, c.toNat < 0x10000) :
    (utf16Units l).length = l.length := by
  induction l with
  | nil => rfl
  | cons c cs ih =>
    have hc : c.toNat < 0x10000 := hl c (by simp)
    have hcs : ∀ d ∈ cs, d.toNat < 0x10000 := fun d hd => hl d (by simp [hd])
    simp [utf16Units, utf16EncodeChar, hc, ih hcs]

/-- For a pattern of ASCII characters, matching code units at the start of a string is
matching characters. -/
theorem isPrefixOf_utf16Units (p : List Char) (hp : ∀ c ∈ p, c.toNat < 128) (s : List Char) :
    (utf16Units p).isPrefixOf (utf16Units s) = p.isPrefixOf s := by
  induction p generalizing s with
  | nil => simp [utf16Units]
  | cons c p ih =>
    have hc : c.toNat < 128 := hp c (by simp)
    have hc2 : c.toNat < 0x10000 := by omega
    have hp2 : ∀ d ∈ p, d.toNat < 128 := fun d hd => hp d (by simp [hd])
    cases s with
    | nil => simp [utf16Units, utf16EncodeChar, hc2]
    | cons d s =>
      by_cases hd : d.toNat < 0x10000
      · by_cases hcd : c = d
        · subst hcd
          simp [utf16Units, utf16EncodeChar, hc2, ih hp2 s]
        · have hne : c.toNat ≠ d.toNat := fun h => hcd (char_eq_of_toNat_eq h)
          have h1 : (c.toNat == d.toNat) = false := beq_eq_false_iff_ne.mpr hne
          have h2 : (c == d) = false := beq_eq_false_iff_ne.mpr hcd
          simp [utf16Units, utf16EncodeChar, hc2, hd, h1, h2, List.isPrefixOf]
      · have hcd : c ≠ d := fun h => hd (h ▸ hc2)
        have hne : c.toNat ≠ 0xD800 + (d.toNat - 0x10000) / 0x400 := by omega
        have h1 : (c.toNat == 0xD800 + (d.toNat - 0x10000) / 0x400) = false :=
          beq_eq_false_iff_ne.mpr hne
        have h2 : (c == d) = false := beq_eq_false_iff_ne.mpr hcd
        simp [utf16Units, utf16EncodeChar, hc2, hd, h1, h2, List.isPrefixOf]

theorem hexDigit_bmp (n : Nat) : (hexDigit n).toNat < 0x10000 := by
  have h : ∀ k, k < 16 → ("0123456789abcdef".toList.getD k '0').toNat < 0x10000 := by decide
  exact h (n % 16) (Nat.mod_lt _ (by decide))

theorem hexWord_bmp (w : Nat) : ∀ c ∈ Sha256.hexWord w, c.toNat < 0x10000 := by
  intro c hc
  simp only [Sha256.hexWord, List.mem_cons, List.mem_singleton, List.not_mem_nil, or_false] at hc
  rcases hc with h | h | h | h | h | h | h | h <;> (rw [h]; exact hexDigit_bmp _)

theorem hexWord_length (w : Nat) : (Sha256.hexWord w).length = 8 := rfl

theorem jsLength_hexDigest (msg : List Nat) : jsLength (Sha256.hexDigest msg) = 64 := by
  unfold jsLength Sha256.hexDigest
  rw [utf16Units_length_of_bmp]
  · simp [hexWord_length]
  · intro c hc
    replace hc : c ∈ Sha256.hexWord (Sha256.digestWords msg).a
        ++ Sha256.hexWord (Sha256.digestWords msg).b ++ Sha256.hexWord (Sha256.digestWords msg).c
        ++ Sha256.hexWord (Sha256.digestWords msg).d ++ Sha256.hexWord (Sha256.digestWords msg).e
        ++ Sha256.hexWord (Sha256.digestWords msg).f ++ Sha256.hexWord (Sha256.digestWords msg).g
        ++ Sha256.hexWord (Sha256.digestWords msg).h := hc
    simp only [List.mem_append] at hc
    rcases hc with ((((((h | h) | h) | h) | h) | h) | h) | h <;> exact hexWord_bmp _ c h

theorem jsLength_generateProof (prompt response : String) (now : Nat) :
    jsLength (ZeroGClient.generateProof prompt response now) = 73 := by
  unfold ZeroGClient.generateProof
  simp only [jsLength_append, jsLength_hexDigest]
  decide

theorem startsWith_proofTag_iff (token : String) :
    startsWith token "0g-proof-" = true ↔ ∃ rest : String, token = "0g-proof-" ++ rest := by
  unfold startsWith
  rw [isPrefixOf_utf16Units _ (by decide), List.isPrefixOf_iff_prefix]
  constructor
  · rintro ⟨t, ht⟩
    refine ⟨String.mk t, String.ext ?_⟩
    rw [String.data_append]
    exact ht.symm
  · rintro ⟨rest, hrest⟩
    exact ⟨rest.toList, by simp [hrest]⟩

theorem char_scalar (c : Char) :
    c.toNat < 0xD800 ∨ (0xDFFF < c.toNat ∧ c.toNat < 0x110000) := c.valid

theorem ethersToUtf8Bytes_utf16Units (l : List Char) :
    ethersToUtf8Bytes (utf16Units l) = .ok (utf8Units l) := by
  induction l with
  | nil => rfl
  | cons c cs ih =>
    have hv := char_scalar c
    by_cases h1 : c.toNat < 0x10000
    · have hu : utf16Units (c :: cs) = c.toNat :: utf16Units cs := by
        simp [utf16Units, utf16EncodeChar, h1]
      rw [hu]
      unfold ethersToUtf8Bytes
      rw [ih]
      by_cases h2 : c.toNat < 0x80
      · simp [h2, prependBytes, utf8Units, utf8EncodeChar]
      · by_cases h3 : c.toNat < 0x800
        · simp [h2, h3, prependBytes, utf8Units, utf8EncodeChar]
        · have h4 : ¬ (0xD800 ≤ c.toNat ∧ c.toNat < 0xDC00) := by omega
          simp [h2, h3, h4, h1, prependBytes, utf8Units, utf8EncodeChar]
    · have hu : utf16Units (c :: cs)
          = (0xD800 + (c.toNat - 0x10000) / 0x400)
            :: (0xDC00 + (c.toNat - 0x10000) % 0x400) :: utf16Units cs := by
        simp [utf16Units, utf16EncodeChar, h1]
      rw [hu]
      unfold ethersToUtf8Bytes
      have a1 : ¬ (0xD800 + (c.toNat - 0x10000) / 0x400 < 0x80) := by omega
      have a2 : ¬ (0xD800 + (c.toNat - 0x10000) / 0x400 < 0x800) := by omega
      have a3 : 0xD800 ≤ 0xD800 + (c.toNat - 0x10000) / 0x400
          ∧ 0xD800 + (c.toNat - 0x10000) / 0x400 < 0xDC00 := by omega
      have a4 : 0xDC00 ≤ 0xDC00 + (c.toNat - 0x10000) % 0x400
          ∧ 0xDC00 + (c.toNat - 0x10000) % 0x400 < 0xE000 := by omega
      have a5 : 0x10000 + (0xD800 + (c.toNat - 0x10000) / 0x400) % 0x400 * 0x400
          + (0xDC00 + (c.toNat - 0x10000) % 0x400) % 0x400 = c.toNat := by omega
      have b1 : ¬ c.toNat < 0x80 := by omega
      have b2 : ¬ c.toNat < 0x800 := by omega
      simp only [a1, a2, a3, a4, if_true, if_false, and_self]
      rw [ih, a5]
      simp only [prependBytes, utf8Units, utf8EncodeChar, b1, b2, h1, if_false]

theorem ethersToUtf8Bytes_string (s : String) :
    ethersToUtf8Bytes (utf16Units s.toList) = .ok (toUtf8Bytes s) :=
  ethersToUtf8Bytes_utf16Units s.toList

/-! ## Known-answer tests of the digests -/

theorem sha256_abc :
    Sha256.hexDigest (toUtf8Bytes "abc")
      = "ba7816bf8f01cfea414140de5dae2223b00361a396177a9cb410ff61f20015ad" := by
  decide!

theorem keccak256_abc :
    keccak256 (toUtf8Bytes "abc")
      = "0x4e03657aea45a94fc7d47ba826c8d667c0d1e6e33a64a036ec44f58fa12d6c45" := by
  decide!

/-! ## Claims on the proof codec -/

/-- C1: `verifyProof(token, prompt, answer)` is true exactly when `token` starts with the
literal prefix `0g-proof-` and has length 72, and its result is the same for every
prompt and answer text. -/
theorem verifyProof_iff_tag_and_length (token prompt answer : String) :
    (ZeroGClient.verifyProof token prompt answer = true ↔
      ((∃ rest : String, token = "0g-proof-" ++ rest) ∧ jsLength token = 72)) ∧
    (∀ prompt2 answer2 : String,
      ZeroGClient.verifyProof token prompt2 answer2
        = ZeroGClient.verifyProof token prompt answer) := by
  refine ⟨?_, fun _ _ => rfl⟩
  unfold ZeroGClient.verifyProof
  rw [Bool.and_eq_true, startsWith_proofTag_iff, beq_iff_eq]

/-- C2 (failing input): the token `generateProof("How does voting work?", "b")` built at
clock reading 1700000000000 has 73 code units (9 of the prefix and 64 hex digits) and is
rejected by `verifyProof`, which asks for 72. -/
theorem generateProof_token_rejected :
    jsLength (ZeroGClient.generateProof "How does voting work?" "b" 1700000000000) = 73 ∧
    jsLength "0g-proof-" = 9 ∧
    ZeroGClient.verifyProof (ZeroGClient.generateProof "How does voting work?" "b" 1700000000000)
      "How does voting work?" "b" = false := by
  refine ⟨jsLength_generateProof _ _ _, by decide, ?_⟩
  unfold ZeroGClient.verifyProof
  rw [jsLength_generateProof]
  simp


/-! ## Lemmas on the chat endpoint -/

theorem utf16EncodeChar_ne_nil (c : Char) : utf16EncodeChar c ≠ [] := by
  unfold utf16EncodeChar
  split <;> simp

theorem jsLength_eq_zero_iff (s : String) : jsLength s = 0 ↔ s = "" := by
  constructor
  · intro h
    apply String.ext
    cases hs : s.data with
    | nil => rfl
    | cons c cs =>
      have hne := utf16EncodeChar_ne_nil c
      simp [jsLength, String.toList, hs, utf16Units, hne] at h
  · rintro rfl
    rfl

/-- The validation of lines 153-157 fails exactly on the values that are not a non-empty
string. -/
theorem invalid_iff (prompt : JsValue) :
    (!truthy prompt || typeOf prompt != "string") = true ↔
      (prompt = .undefined ∨ (∀ s : String, prompt ≠ .string s) ∨ prompt = .string "") := by
  cases prompt with
  | undefined => simp [truthy]
  | null => simp [truthy, typeOf]
  | boolean b => simp [typeOf]
  | number x => simp [typeOf]
  | object => simp [typeOf]
  | string s =>
    have h := jsLength_eq_zero_iff s
    simp [truthy, typeOf, h]

theorem valid_of_ne_empty (p : String) (hp : p ≠ "") :
    (!truthy (.string p) || typeOf (.string p) != "string") = false := by
  rw [← Bool.not_eq_true, invalid_iff]
  simp [hp]

/-- The response to a valid prompt when generation returns `aiResponse`. -/
theorem chatHandler_of_generated (contract : Option Contract)
    (generate : InferenceRequest → Except String InferenceResponse)
    (random : Rand) (clock : Nat) (p : String) (aiResponse : InferenceResponse)
    (hp : p ≠ "")
    (hgen : generate ⟨p, some "0g-governance-assistant-v1", some 0.7, some 1000⟩
      = .ok aiResponse) :
    (chatHandler contract generate random clock (.string p)).1 =
      ⟨200, .chat
        { requestId := (obtainRequestId contract random (keccak256 (toUtf8Bytes p))).1
          text := aiResponse.text
          proof := aiResponse.proof
          model := aiResponse.model
          usage := aiResponse.usage
          timestamp := clock
          verifiable := contract.isSome }⟩ := by
  unfold chatHandler
  rw [valid_of_ne_empty p hp]
  simp only [Bool.false_eq_true, if_false, stringOf, ethersToUtf8Bytes_string, hgen]

theorem chatHandler_effects_of_generated (contract : Option Contract)
    (generate : InferenceRequest → Except String InferenceResponse)
    (random : Rand) (clock : Nat) (p : String) (aiResponse : InferenceResponse)
    (hp : p ≠ "")
    (hgen : generate ⟨p, some "0g-governance-assistant-v1", some 0.7, some 1000⟩
      = .ok aiResponse) :
    (chatHandler contract generate random clock (.string p)).2 =
      [.keccak256 p] ++ (obtainRequestId contract random (keccak256 (toUtf8Bytes p))).2
        ++ [.generateResponse p]
        ++ submitAnswerOnChain contract
            (obtainRequestId contract random (keccak256 (toUtf8Bytes p))).1 aiResponse := by
  unfold chatHandler
  rw [valid_of_ne_empty p hp]
  simp only [Bool.false_eq_true, if_false, stringOf, ethersToUtf8Bytes_string, hgen]

theorem chatHandler_status_of_valid (contract : Option Contract)
    (generate : InferenceRequest → Except String InferenceResponse)
    (random : Rand) (clock : Nat) (p : String) (hp : p ≠ "") :
    (chatHandler contract generate random clock (.string p)).1.status ≠ 400 := by
  unfold chatHandler
  rw [valid_of_ne_empty p hp]
  simp only [Bool.false_eq_true, if_false, stringOf, ethersToUtf8Bytes_string]
  split <;> simp

/-! ## Claims on the chat endpoint -/

/-- C3 (failing input): with a contract handle whose `createRequest` and `submitAnswer`
both throw, the response to "How does voting work?" has status 200, carries the locally
drawn request id and still says `verifiable: true`. -/
theorem verifiable_true_though_ledger_calls_throw :
    (chatHandler (some rejectingContract) (zeroGGenerate (fun c => [c]) 1700000000000)
        ⟨1, 4, by decide⟩ 1700000000001 (.string "How does voting work?")).1.verifiable?
      = some true ∧
    (chatHandler (some rejectingContract) (zeroGGenerate (fun c => [c]) 1700000000000)
        ⟨1, 4, by decide⟩ 1700000000001 (.string "How does voting work?")).1.requestId?
      = some 250000 ∧
    (createRequestOnChain rejectingContract
        (keccak256 (toUtf8Bytes "How does voting work?"))).1 = .error "transaction rejected" := by
  refine ⟨?_, ?_, rfl⟩
  · rw [chatHandler_of_generated _ _ _ _ _ _ (by decide) rfl]
    rfl
  · rw [chatHandler_of_generated _ _ _ _ _ _ (by decide) rfl]
    rfl

/-- C4: for a non-empty string prompt on which generation succeeds, the chat handler
answers with status 200 and a body holding a request id and exactly the generated text
and proof, whatever the contract handle is and whatever its calls return or throw. -/
theorem chat_succeeds_whenever_generation_succeeds (contract : Option Contract)
    (generate : InferenceRequest → Except String InferenceResponse)
    (random : Rand) (clock : Nat) (p : String) (aiResponse : InferenceResponse)
    (hp : p ≠ "")
    (hgen : generate ⟨p, some "0g-governance-assistant-v1", some 0.7, some 1000⟩
      = .ok aiResponse) :
    ∃ requestId : Nat,
      (chatHandler contract generate random clock (.string p)).1 =
        ⟨200, .chat
          { requestId := requestId
            text := aiResponse.text
            proof := aiResponse.proof
            model := aiResponse.model
            usage := aiResponse.usage
            timestamp := clock
            verifiable := contract.isSome }⟩ :=
  ⟨_, chatHandler_of_generated contract generate random clock p aiResponse hp hgen⟩

/-- C4 at a concrete input: the prompt "Treasury status" with a contract handle all of
whose calls throw. -/
theorem chat_succeeds_whenever_generation_succeeds_witness :
    ∃ requestId : Nat,
      (chatHandler (some rejectingContract) (zeroGGenerate (fun c => [c]) 1700000000000)
          ⟨1, 4, by decide⟩ 1700000000001 (.string "Treasury status")).1 =
        ⟨200, .chat
          { requestId := requestId
            text := (ZeroGClient.generateResponse (fun c => [c]) 1700000000000
              ⟨"Treasury status", some "0g-governance-assistant-v1", some 0.7, some 1000⟩).text
            proof := (ZeroGClient.generateResponse (fun c => [c]) 1700000000000
              ⟨"Treasury status", some "0g-governance-assistant-v1", some 0.7, some 1000⟩).proof
            model := (ZeroGClient.generateResponse (fun c => [c]) 1700000000000
              ⟨"Treasury status", some "0g-governance-assistant-v1", some 0.7, some 1000⟩).model
            usage := (ZeroGClient.generateResponse (fun c => [c]) 1700000000000
              ⟨"Treasury status", some "0g-governance-assistant-v1", some 0.7, some 1000⟩).usage
            timestamp := 1700000000001
            verifiable := true }⟩ :=
  chat_succeeds_whenever_generation_succeeds (some rejectingContract)
    (zeroGGenerate (fun c => [c]) 1700000000000) ⟨1, 4, by decide⟩ 1700000000001
    "Treasury status" _ (by decide) rfl

/-- C5: for a non-empty string prompt, the response of the chat handler has
`verifiable = false` when there is no contract handle (mock mode), and `verifiable = true`
when there is one and both `createRequest` (transaction, confirmation and id read from the
event log) and `submitAnswer` (transaction and confirmation) succeed. -/
theorem verifiable_in_mock_and_connected (lowerTable : Char → List Char) (now : Nat)
    (random : Rand) (clock : Nat) (p : String) (hp : p ≠ "") :
    (chatHandler none (zeroGGenerate lowerTable now) random clock (.string p)).1.verifiable?
      = some false ∧
    (∀ (c : Contract) (requestId : Nat) (tx : Tx) (receipt : Receipt),
      (createRequestOnChain c (keccak256 (toUtf8Bytes p))).1 = .ok requestId →
      c.submitAnswer requestId
        (ZeroGClient.generateResponse lowerTable now
          ⟨p, some "0g-governance-assistant-v1", some 0.7, some 1000⟩).text
        (toUtf8Bytes (ZeroGClient.generateResponse lowerTable now
          ⟨p, some "0g-governance-assistant-v1", some 0.7, some 1000⟩).proof) = .ok tx →
      tx.wait = .ok receipt →
      (chatHandler (some c) (zeroGGenerate lowerTable now) random clock (.string p)).1.verifiable?
        = some true) := by
  constructor
  · rw [chatHandler_of_generated _ _ _ _ _ _ hp rfl]
    rfl
  · intro c requestId tx receipt _ _ _
    rw [chatHandler_of_generated _ _ _ _ _ _ hp rfl]
    rfl

/-- C5 at a concrete input: the prompt "Treasury status" in mock mode, and with a
contract handle all of whose transactions are confirmed. -/
theorem verifiable_in_mock_and_connected_witness :
    (chatHandler none (zeroGGenerate (fun c => [c]) 1700000000000) ⟨1, 4, by decide⟩
        1700000000001 (.string "Treasury status")).1.verifiable? = some false ∧
    (chatHandler (some (confirmingContract 7 [⟨7, "0xaa", "0xf39f"⟩]))
        (zeroGGenerate (fun c => [c]) 1700000000000) ⟨1, 4, by decide⟩
        1700000000001 (.string "Treasury status")).1.verifiable? = some true :=
  have h := verifiable_in_mock_and_connected (fun c => [c]) 1700000000000 ⟨1, 4, by decide⟩
    1700000000001 "Treasury status" (by decide)
  ⟨h.1, h.2 (confirmingContract 7 [⟨7, "0xaa", "0xf39f"⟩]) 7 ⟨.ok ⟨[]⟩⟩ ⟨[]⟩ rfl rfl rfl⟩

/-- C6: the chat handler answers 400 exactly when the `prompt` of the body is missing,
is not a string, or is the empty string; it then performs no effect at all (no hash, no
ledger call, no generation).  Every non-empty string, a blank one included, passes the
validation: the answer is not 400 and the handler goes on to hash the prompt. -/
theorem chat_rejects_exactly_invalid_prompts (contract : Option Contract)
    (generate : InferenceRequest → Except String InferenceResponse)
    (random : Rand) (clock : Nat) (prompt : JsValue) :
    ((chatHandler contract generate random clock prompt).1.status = 400 ↔
      (prompt = .undefined ∨ (∀ s : String, prompt ≠ .string s) ∨ prompt = .string "")) ∧
    ((chatHandler contract generate random clock prompt).1.status = 400 →
      (chatHandler contract generate random clock prompt).2 = []) ∧
    (∀ s : String, s ≠ "" →
      (chatHandler contract generate random clock (.string s)).1.status ≠ 400 ∧
      (chatHandler contract generate random clock (.string s)).2.head? = some (.keccak256 s)) ∧
    (chatHandler contract generate random clock (.string " ")).1.status ≠ 400 := by
  have key : (chatHandler contract generate random clock prompt).1.status = 400 ↔
      (!truthy prompt || typeOf prompt != "string") = true := by
    constructor
    · intro h
      by_contra hv
      cases prompt with
      | string s =>
        have hs : s ≠ "" := by
          intro hs
          apply hv
          rw [invalid_iff]
          exact Or.inr (Or.inr (by rw [hs]))
        exact chatHandler_status_of_valid contract generate random clock s hs h
      | _ => exact hv (by simp [truthy, typeOf])
    · intro h
      unfold chatHandler
      rw [if_pos h]
  refine ⟨key.trans (invalid_iff prompt), ?_, ?_, ?_⟩
  · intro h
    unfold chatHandler
    rw [if_pos (key.mp h)]
  · intro s hs
    refine ⟨chatHandler_status_of_valid contract generate random clock s hs, ?_⟩
    unfold chatHandler
    rw [valid_of_ne_empty s hs]
    simp only [Bool.false_eq_true, if_false, stringOf, ethersToUtf8Bytes_string]
    split <;> rfl
  · exact chatHandler_status_of_valid contract generate random clock " " (by decide)

/-! ## Claims on the usage counters -/

theorem ascii_code_units_eq_bytes (l : List Char) (hl : ∀ c ∈ l, c.toNat < 128) :
    (utf16Units l).length = (utf8Units l).length := by
  induction l with
  | nil => rfl
  | cons c cs ih =>
    have hc : c.toNat < 128 := hl c (by simp)
    have hc2 : c.toNat < 0x10000 := by omega
    have hcs : ∀ d ∈ cs, d.toNat < 128 := fun d hd => hl d (by simp [hd])
    simp [utf16Units, utf8Units, utf16EncodeChar, utf8EncodeChar, hc, hc2, ih hcs]

theorem jsLength_eq_utf8ByteLength_of_ascii (s : String)
    (hs : ∀ c ∈ s.toList, c.toNat < 128) : jsLength s = utf8ByteLength s :=
  ascii_code_units_eq_bytes s.toList hs


theorem templates_ascii :
    (∀ c ∈ ZeroGClient.proposalsSummary.toList, c.toNat < 128) ∧
    (∀ c ∈ ZeroGClient.tokenomicsOverview.toList, c.toNat < 128) ∧
    (∀ c ∈ ZeroGClient.votingProcess.toList, c.toNat < 128) ∧
    (∀ c ∈ ZeroGClient.treasuryStatus.toList, c.toNat < 128) ∧
    (∀ c ∈ ZeroGClient.defaultHelp.toList, c.toNat < 128) := by
  refine ⟨?_, ?_, ?_, ?_, ?_⟩ <;> decide!

theorem generateMockResponse_cases (lowerTable : Char → List Char) (prompt : String) :
    ZeroGClient.generateMockResponse lowerTable prompt = ZeroGClient.proposalsSummary ∨
    ZeroGClient.generateMockResponse lowerTable prompt = ZeroGClient.tokenomicsOverview ∨
    ZeroGClient.generateMockResponse lowerTable prompt = ZeroGClient.votingProcess ∨
    ZeroGClient.generateMockResponse lowerTable prompt = ZeroGClient.treasuryStatus ∨
    ZeroGClient.generateMockResponse lowerTable prompt = ZeroGClient.defaultHelp := by
  unfold ZeroGClient.generateMockResponse
  simp only
  split
  · exact Or.inl rfl
  · split
    · exact Or.inr (Or.inl rfl)
    · split
      · exact Or.inr (Or.inr (Or.inl rfl))
      · split
        · exact Or.inr (Or.inr (Or.inr (Or.inl rfl)))
        · exact Or.inr (Or.inr (Or.inr (Or.inr rfl)))

theorem generateMockResponse_ascii (lowerTable : Char → List Char) (prompt : String) :
    ∀ c ∈ (ZeroGClient.generateMockResponse lowerTable prompt).toList, c.toNat < 128 := by
  rcases generateMockResponse_cases lowerTable prompt with h | h | h | h | h <;> rw [h]
  · exact templates_ascii.1
  · exact templates_ascii.2.1
  · exact templates_ascii.2.2.1
  · exact templates_ascii.2.2.2.1
  · exact templates_ascii.2.2.2.2

/-- C7 (counterexample): for the prompt "éééé" (4 UTF-16 code units, 8 UTF-8 bytes)
`generateResponse` reports `promptTokens = 1`, not 8 / 4 = 2. -/
theorem promptTokens_not_byte_length :
    (ZeroGClient.generateResponse (fun c => [c]) 1700000000000
      ⟨"éééé", some "0g-governance-assistant-v1", some 0.7, some 1000⟩).usage.promptTokens = 1 ∧
    utf8ByteLength "éééé" / 4 = 2 ∧
    (ZeroGClient.generateResponse (fun c => [c]) 1700000000000
      ⟨"éééé", some "0g-governance-assistant-v1", some 0.7, some 1000⟩).usage.promptTokens
      ≠ utf8ByteLength "éééé" / 4 := by
  refine ⟨by decide, by decide, by decide⟩

/-- C7 (amended): `generateResponse` reports `promptTokens` as the length of the prompt in
UTF-16 code units (JavaScript `length`) divided by 4, rounded down, and
`completionTokens` as the length of the answer text in UTF-16 code units divided by 4.
The answer text is always ASCII, so `completionTokens` is also its UTF-8 byte length
divided by 4; `promptTokens` is the UTF-8 byte length of the prompt divided by 4 when the
prompt is ASCII. -/
theorem usage_counts_code_units (lowerTable : Char → List Char) (now : Nat)
    (request : InferenceRequest) :
    (ZeroGClient.generateResponse lowerTable now request).usage.promptTokens
      = jsLength request.prompt / 4 ∧
    (ZeroGClient.generateResponse lowerTable now request).usage.completionTokens
      = jsLength (ZeroGClient.generateResponse lowerTable now request).text / 4 ∧
    (ZeroGClient.generateResponse lowerTable now request).usage.completionTokens
      = utf8ByteLength (ZeroGClient.generateResponse lowerTable now request).text / 4 ∧
    ((∀ c ∈ request.prompt.toList, c.toNat < 128) →
      (ZeroGClient.generateResponse lowerTable now request).usage.promptTokens
        = utf8ByteLength request.prompt / 4) := by
  refine ⟨rfl, rfl, ?_, ?_⟩
  · show jsLength (ZeroGClient.generateMockResponse lowerTable request.prompt) / 4
      = utf8ByteLength (ZeroGClient.generateMockResponse lowerTable request.prompt) / 4
    rw [jsLength_eq_utf8ByteLength_of_ascii _ (generateMockResponse_ascii lowerTable _)]
  · intro h
    show jsLength request.prompt / 4 = utf8ByteLength request.prompt / 4
    rw [jsLength_eq_utf8ByteLength_of_ascii _ h]

/-! ## Lemmas on doubles -/

theorem roundHalfEven_one (a : Nat) : roundHalfEven a 1 = a := by
  simp [roundHalfEven, Nat.mod_one]

theorem jsNumber_of_lt (n : Nat) (h : n < 2 ^ 53) : jsNumber n = n := by
  unfold jsNumber nearestDouble
  have h1 : n < 2 ^ 53 * 1 := by omega
  simp only [if_pos h1, roundHalfEven_one]
  exact Nat.mul_div_cancel n (Nat.pos_pow_of_pos _ (by decide))

theorem roundHalfEven_le (a d b : Nat) (h : a < d * b) : roundHalfEven a d ≤ b := by
  have hd : 0 < d := by
    rcases Nat.eq_zero_or_pos d with h0 | h0
    · rw [h0] at h; simp at h
    · exact h0
  have ht : a / d < b := (Nat.div_lt_iff_lt_mul hd).mpr (by rw [Nat.mul_comm]; exact h)
  have hm : (a / d) % 2 ≤ 1 := by omega
  unfold roundHalfEven
  simp only
  split
  · omega
  · split <;> omega

theorem roundHalfEven_lt (a d b : Nat) (h : 2 * a + d < 2 * (d * b)) :
    roundHalfEven a d < b := by
  have hdm := Nat.div_add_mod a d
  have hmul : d * (a / d + 1) = d * (a / d) + d := Nat.mul_succ _ _
  have hm : (a / d) % 2 ≤ 1 := by omega
  unfold roundHalfEven
  simp only
  split
  · apply Nat.lt_of_mul_lt_mul_left (a := d)
    omega
  · have hlt : a / d + 1 < b := by
      apply Nat.lt_of_mul_lt_mul_left (a := d)
      omega
    split <;> omega

theorem binaryScale_spec (a d : Nat) (fuel k : Nat) :
    binaryScale a d fuel k ≤ k + fuel ∧
    (∀ j, k ≤ j → j < binaryScale a d fuel k → a * 2 ^ j < 2 ^ 52 * d) ∧
    (2 ^ 52 * d ≤ a * 2 ^ binaryScale a d fuel k ∨ binaryScale a d fuel k = k + fuel) := by
  induction fuel generalizing k with
  | zero =>
    refine ⟨Nat.le_refl _, ?_, Or.inr rfl⟩
    intro j h1 h2
    simp only [binaryScale] at h2
    omega
  | succ fuel ih =>
    unfold binaryScale
    split
    next hle =>
      refine ⟨by omega, ?_, Or.inl hle⟩
      intro j h1 h2
      omega
    next hnle =>
      obtain ⟨i1, i2, i3⟩ := ih (k + 1)
      refine ⟨by omega, ?_, ?_⟩
      · intro j h1 h2
        rcases Nat.eq_or_lt_of_le h1 with h | h
        · rw [← h]; omega
        · exact i2 j h h2
      · rcases i3 with h | h
        · exact Or.inl h
        · exact Or.inr (by omega)

theorem Rand.IsDouble.gap (r : Rand) (h : r.IsDouble) : r.den ≤ (r.den - r.num) * 2 ^ 53 := by
  obtain ⟨m, e, hm, _, heq⟩ := h
  have hlt := r.lt
  have hpos : 0 < 2 ^ e := Nat.pos_pow_of_pos _ (by decide)
  by_cases he : e ≤ 53
  · have h1 : r.num * 2 ^ e < r.den * 2 ^ e := Nat.mul_lt_mul_of_pos_right hlt hpos
    have h2 : m * r.den < 2 ^ e * r.den := by rw [← heq, Nat.mul_comm (2 ^ e)]; exact h1
    have h3 : m < 2 ^ e := Nat.lt_of_mul_lt_mul_right h2
    have h4 : (m + 1) * r.den ≤ 2 ^ e * r.den := Nat.mul_le_mul_right _ h3
    have h5 : r.den ≤ (r.den - r.num) * 2 ^ e := by
      rw [Nat.sub_mul, heq, Nat.mul_comm r.den]
      rw [Nat.add_mul] at h4
      omega
    have h6 : 2 ^ e ≤ 2 ^ 53 := Nat.pow_le_pow_right (by decide) he
    exact Nat.le_trans h5 (Nat.mul_le_mul_left _ h6)
  · have he2 : 2 ^ e = 2 ^ 53 * 2 ^ (e - 53) := by
      rw [← Nat.pow_add]; congr 1; omega
    have h2 : 2 ≤ 2 ^ (e - 53) := by
      have : 2 ^ 1 ≤ 2 ^ (e - 53) := Nat.pow_le_pow_right (by decide) (by omega)
      simpa using this
    have h3 : m * r.den < 2 ^ 53 * r.den :=
      Nat.mul_lt_mul_of_pos_right hm (by omega)
    have h4 : 2 ^ 53 * (r.num * 2 ^ (e - 53)) < 2 ^ 53 * r.den := by
      have : 2 ^ 53 * (r.num * 2 ^ (e - 53)) = r.num * 2 ^ e := by
        rw [he2]; ring
      rw [this, heq]; exact h3
    have h5 : r.num * 2 ^ (e - 53) < r.den := Nat.lt_of_mul_lt_mul_left h4
    have h6 : r.num * 2 ≤ r.num * 2 ^ (e - 53) := Nat.mul_le_mul_left _ h2
    have h7 : (r.den - r.num) * 2 ≤ (r.den - r.num) * 2 ^ 53 :=
      Nat.mul_le_mul_left _ (by norm_num)
    omega

theorem randomRequestId_lt_of_double (r : Rand) (h : r.IsDouble) :
    randomRequestId r < 1000000 := by
  have hgap := h.gap
  have hlt := r.lt
  have hden : 0 < r.den := by omega
  have ha : r.num * 1000000 < 2 ^ 53 * r.den := by
    have : r.num * 1000000 < r.den * 1000000 := Nat.mul_lt_mul_of_pos_right hlt (by decide)
    have h2 : r.den * 1000000 ≤ 2 ^ 53 * r.den := by
      rw [Nat.mul_comm]; exact Nat.mul_le_mul_right _ (by norm_num)
    omega
  unfold randomRequestId nearestDouble
  simp only [if_pos ha]
  obtain ⟨s1, s2, s3⟩ := binaryScale_spec (r.num * 1000000) r.den 1074 0
  generalize binaryScale (r.num * 1000000) r.den 1074 0 = k at s1 s2 s3
  have hk : 0 < 2 ^ k := Nat.pos_pow_of_pos _ (by decide)
  rw [Nat.div_lt_iff_lt_mul hk]
  -- the scale is at least 33
  have hk33 : 33 ≤ k := by
    by_contra hc
    have hk32 : k ≤ 32 := by omega
    rcases s3 with h3 | h3
    · have hp : 2 ^ k ≤ 2 ^ 32 := Nat.pow_le_pow_right (by decide) hk32
      have h4 : r.num * 1000000 * 2 ^ k ≤ r.num * 1000000 * 2 ^ 32 := Nat.mul_le_mul_left _ hp
      have h5 : r.num * 1000000 * 2 ^ 32 < 2 ^ 52 * r.den := by
        norm_num
        omega
      omega
    · omega
  rcases Nat.eq_or_lt_of_le hk33 with hk | hk
  · subst hk
    apply roundHalfEven_lt
    norm_num
    norm_num at hgap
    omega
  · have hprev := s2 (k - 1) (by omega) (by omega)
    have hpow : 2 ^ k = 2 ^ (k - 1) * 2 := by
      rw [← Nat.pow_succ]; congr 1; omega
    have h53 : r.num * 1000000 * 2 ^ k < r.den * 2 ^ 53 := by
      rw [hpow, ← Nat.mul_assoc]
      norm_num at hprev ⊢
      omega
    have hm := roundHalfEven_le _ _ _ h53
    have hp34 : 2 ^ 34 ≤ 2 ^ k := Nat.pow_le_pow_right (by decide) (by omega)
    have : 2 ^ 53 < 1000000 * 2 ^ 34 := by norm_num
    have h2 : 1000000 * 2 ^ 34 ≤ 1000000 * 2 ^ k := Nat.mul_le_mul_left _ hp34
    omega

/-- Known products: the doubles nearest to 0.002359 and to 0.000001 give 2359 and 1 (the
exact products lie just below), and `Number` merges `2^53 + 1` into `2^53`. -/
theorem double_examples :
    randomRequestId ⟨10623991520967, 2 ^ 52, by decide⟩ = 2359 ∧
    randomRequestId ⟨4722366482869645, 2 ^ 72, by decide⟩ = 1 ∧
    randomRequestId ⟨2 ^ 53 - 1, 2 ^ 53, by decide⟩ = 999999 ∧
    jsNumber (2 ^ 53 + 1) = 2 ^ 53 ∧ jsNumber (2 ^ 53 + 3) = 2 ^ 53 + 4 := by
  refine ⟨?_, ?_, ?_, ?_, ?_⟩ <;> decide

/-! ## Claims on request ids -/

/-- C8 (failing input): the ledger assigns id 5 to the request created by the transaction
of this call (the event in its receipt), and by the time the handler queries the
`RequestCreated` log another request, id 6, has been created.  The handler returns 6. -/
theorem requestId_of_last_logged_event :
    (confirmingContract 5 racedLog).createRequest (keccak256 (toUtf8Bytes "Treasury status"))
      = .ok ⟨.ok ⟨[⟨5, keccak256 (toUtf8Bytes "Treasury status"), "0xf39f"⟩]⟩⟩ ∧
    (⟨5, keccak256 (toUtf8Bytes "Treasury status"), "0xf39f"⟩ : LedgerEvent) ∈ racedLog ∧
    (chatHandler (some (confirmingContract 5 racedLog))
        (zeroGGenerate (fun c => [c]) 1700000000000) ⟨1, 4, by decide⟩ 1700000000001
        (.string "Treasury status")).1.requestId? = some 6 := by
  refine ⟨rfl, ?_, ?_⟩
  · simp [racedLog]
  · rw [chatHandler_of_generated _ _ _ _ _ _ (by decide) rfl]
    rfl

theorem get?_last_eq_getLast? {α : Type} (l : List α) : l.get? (l.length - 1) = l.getLast? := by
  rw [List.getLast?_eq_getElem?, List.get?_eq_getElem?]

theorem obtainRequestId_none (random : Rand) (promptHash : String) :
    (obtainRequestId none random promptHash).1 = randomRequestId random := rfl

theorem obtainRequestId_of_error (c : Contract) (random : Rand) (promptHash e : String)
    (h : (createRequestOnChain c promptHash).1 = .error e) :
    (obtainRequestId (some c) random promptHash).1 = randomRequestId random := by
  unfold obtainRequestId
  rcases hc : createRequestOnChain c promptHash with ⟨r, effects⟩
  rw [hc] at h
  cases r with
  | error e2 => simp only [hc]
  | ok v => simp at h

theorem obtainRequestId_of_log (c : Contract) (random : Rand) (promptHash : String)
    (tx : Tx) (receipt : Receipt) (log : List LedgerEvent) (last : LedgerEvent)
    (h1 : c.createRequest promptHash = .ok tx) (h2 : tx.wait = .ok receipt)
    (h3 : c.queryFilter = .ok log) (h4 : log.getLast? = some last) :
    (obtainRequestId (some c) random promptHash).1 = jsNumber last.requestId := by
  unfold obtainRequestId createRequestOnChain
  simp only [h1, h2, h3, get?_last_eq_getLast?, h4]

/-- C9 (counterexample): two sequential calls with the prompt "Treasury status" return
the same request id (a) in mock mode, when the two draws 0.25 and 0.25 + 2^-30 differ but
give the same integer part, 250000; (b) with a contract handle, when the ledger ids
`2^53` and `2^53 + 1` of the two requests are merged by `Number(...)`; (c) with a contract
handle, when the first query of the log comes back empty, so that the first call falls
back to the local id 250000, which is also the ledger id of the second request. -/
theorem sequential_requestIds_repeat :
    ((chatHandler none (zeroGGenerate (fun c => [c]) 1700000000000) ⟨1, 4, by decide⟩
        1700000000001 (.string "Treasury status")).1.requestId? = some 250000 ∧
     (chatHandler none (zeroGGenerate (fun c => [c]) 1700000005000)
        ⟨2 ^ 28 + 1, 2 ^ 30, by decide⟩
        1700000005001 (.string "Treasury status")).1.requestId? = some 250000) ∧
    ((chatHandler (some (confirmingContract (2 ^ 53) [⟨2 ^ 53, "0xaa", "0xf39f"⟩]))
        (zeroGGenerate (fun c => [c]) 1700000000000) ⟨1, 4, by decide⟩
        1700000000001 (.string "Treasury status")).1.requestId? = some (2 ^ 53) ∧
     (chatHandler (some (confirmingContract (2 ^ 53 + 1)
          [⟨2 ^ 53, "0xaa", "0xf39f"⟩, ⟨2 ^ 53 + 1, "0xaa", "0xf39f"⟩]))
        (zeroGGenerate (fun c => [c]) 1700000005000) ⟨1, 2, by decide⟩
        1700000005001 (.string "Treasury status")).1.requestId? = some (2 ^ 53)) ∧
    ((chatHandler (some (confirmingContract 250000 []))
        (zeroGGenerate (fun c => [c]) 1700000000000) ⟨1, 4, by decide⟩
        1700000000001 (.string "Treasury status")).1.requestId? = some 250000 ∧
     (chatHandler (some (confirmingContract 250000 [⟨250000, "0xaa", "0xf39f"⟩]))
        (zeroGGenerate (fun c => [c]) 1700000005000) ⟨1, 2, by decide⟩
        1700000005001 (.string "Treasury status")).1.requestId? = some 250000) := by
  refine ⟨⟨?_, ?_⟩, ⟨?_, ?_⟩, ⟨?_, ?_⟩⟩ <;>
    (rw [chatHandler_of_generated _ _ _ _ _ _ (by decide) rfl]; rfl)

/-- C9 (amended): for a non-empty prompt, two sequential chat calls return distinct
request ids when both run with a contract handle, both `createRequest` transactions are
confirmed, the `RequestCreated` log of the first query is not empty, the log has grown,
with strictly increasing ids, between the two queries, and its ids are below `2^53`
(where `Number(...)` is exact).  In mock mode, and when the `createRequest` block fails,
the request id is `floor(Math.random() * 1000000)` of the draw of that call, whatever
was returned before. -/
theorem sequential_requestIds (lowerTable : Char → List Char) (now1 now2 : Nat)
    (random1 random2 : Rand) (clock1 clock2 : Nat) (p : String) (hp : p ≠ "") :
    (∀ (c1 c2 : Contract) (tx1 tx2 : Tx) (receipt1 receipt2 : Receipt)
        (log1 log2 : List LedgerEvent),
      c1.createRequest (keccak256 (toUtf8Bytes p)) = .ok tx1 → tx1.wait = .ok receipt1 →
      c1.queryFilter = .ok log1 → log1 ≠ [] →
      c2.createRequest (keccak256 (toUtf8Bytes p)) = .ok tx2 → tx2.wait = .ok receipt2 →
      c2.queryFilter = .ok log2 → LedgerLogExtends log1 log2 →
      (∀ e ∈ log2, e.requestId < 2 ^ 53) →
      (chatHandler (some c1) (zeroGGenerate lowerTable now1) random1 clock1
          (.string p)).1.requestId?
        ≠ (chatHandler (some c2) (zeroGGenerate lowerTable now2) random2 clock2
          (.string p)).1.requestId?) ∧
    (chatHandler none (zeroGGenerate lowerTable now1) random1 clock1 (.string p)).1.requestId?
      = some (randomRequestId random1) ∧
    (chatHandler none (zeroGGenerate lowerTable now2) random2 clock2 (.string p)).1.requestId?
      = some (randomRequestId random2) ∧
    (∀ (c : Contract) (e : String),
      (createRequestOnChain c (keccak256 (toUtf8Bytes p))).1 = .error e →
      (chatHandler (some c) (zeroGGenerate lowerTable now2) random2 clock2
          (.string p)).1.requestId?
        = some (randomRequestId random2)) := by
  refine ⟨?_, ?_, ?_, ?_⟩
  · intro c1 c2 tx1 tx2 receipt1 receipt2 log1 log2 h1 h2 h3 hne h4 h5 h6 hext hbound
    obtain ⟨⟨extra, hextra, hlog⟩, hpair⟩ := hext
    obtain ⟨last1, hl1⟩ : ∃ e, log1.getLast? = some e :=
      ⟨log1.getLast hne, List.getLast?_eq_getLast _ hne⟩
    obtain ⟨last2, hl2⟩ : ∃ e, extra.getLast? = some e :=
      ⟨extra.getLast hextra, List.getLast?_eq_getLast _ hextra⟩
    have hl2' : log2.getLast? = some last2 := by
      rw [hlog, List.getLast?_append, hl2]
      rfl
    have hm1 : last1 ∈ log1 := List.mem_of_getLast?_eq_some hl1
    have hm2 : last2 ∈ extra := List.mem_of_getLast?_eq_some hl2
    have hlt : last1.requestId < last2.requestId := by
      rw [hlog, List.map_append, List.pairwise_append] at hpair
      exact hpair.2.2 _ (List.mem_map_of_mem _ hm1) _ (List.mem_map_of_mem _ hm2)
    have hb1 : last1.requestId < 2 ^ 53 :=
      hbound last1 (by rw [hlog]; exact List.mem_append_left _ hm1)
    have hb2 : last2.requestId < 2 ^ 53 :=
      hbound last2 (by rw [hlog]; exact List.mem_append_right _ hm2)
    rw [chatHandler_of_generated _ _ _ _ _ _ hp rfl, chatHandler_of_generated _ _ _ _ _ _ hp rfl]
    simp only [HttpResponse.requestId?]
    rw [obtainRequestId_of_log c1 random1 _ tx1 receipt1 log1 last1 h1 h2 h3 hl1,
      obtainRequestId_of_log c2 random2 _ tx2 receipt2 log2 last2 h4 h5 h6 hl2',
      jsNumber_of_lt _ hb1, jsNumber_of_lt _ hb2]
    intro h
    have := Option.some.inj h
    omega
  · rw [chatHandler_of_generated _ _ _ _ _ _ hp rfl]
    rfl
  · rw [chatHandler_of_generated _ _ _ _ _ _ hp rfl]
    rfl
  · intro c e h
    rw [chatHandler_of_generated _ _ _ _ _ _ hp rfl]
    simp only [HttpResponse.requestId?]
    rw [obtainRequestId_of_error c random2 _ e h]

/-- C9 (amended) at a concrete input: two calls with the prompt "Treasury status"; the
log holds the event of id 5 at the first query and those of ids 5 and 6 at the second. -/
theorem sequential_requestIds_witness :
    (chatHandler (some (confirmingContract 5 [⟨5, "0xaa", "0xf39f"⟩]))
        (zeroGGenerate (fun c => [c]) 1700000000000) ⟨1, 4, by decide⟩ 1700000000001
        (.string "Treasury status")).1.requestId?
      ≠ (chatHandler (some (confirmingContract 6 [⟨5, "0xaa", "0xf39f"⟩, ⟨6, "0xaa", "0xf39f"⟩]))
        (zeroGGenerate (fun c => [c]) 1700000005000) ⟨1, 4, by decide⟩ 1700000005001
        (.string "Treasury status")).1.requestId? :=
  (sequential_requestIds (fun c => [c]) 1700000000000 1700000005000 ⟨1, 4, by decide⟩
    ⟨1, 4, by decide⟩ 1700000000001 1700000005001 "Treasury status" (by decide)).1
    (confirmingContract 5 [⟨5, "0xaa", "0xf39f"⟩])
    (confirmingContract 6 [⟨5, "0xaa", "0xf39f"⟩, ⟨6, "0xaa", "0xf39f"⟩])
    _ _ _ _ _ _ rfl rfl rfl (by decide) rfl rfl rfl
    ⟨⟨[⟨6, "0xaa", "0xf39f"⟩], by decide, rfl⟩, by decide⟩ (by decide)

/-! ## Claims on the reproducibility of proof tokens -/

theorem decDigit_injOn : ∀ a, a < 10 → ∀ b, b < 10 → decDigit a = decDigit b → a = b := by
  decide

theorem map_decDigit_injective (l1 l2 : List Nat) (h1 : ∀ d ∈ l1, d < 10)
    (h2 : ∀ d ∈ l2, d < 10) (h : l1.map decDigit = l2.map decDigit) : l1 = l2 := by
  induction l1 generalizing l2 with
  | nil =>
    cases l2 with
    | nil => rfl
    | cons b bs => simp at h
  | cons a as ih =>
    cases l2 with
    | nil => simp at h
    | cons b bs =>
      simp only [List.map_cons, List.cons.injEq] at h
      have hab : a = b := decDigit_injOn a (h1 a (by simp)) b (h2 b (by simp)) h.1
      have := ih bs (fun d hd => h1 d (by simp [hd])) (fun d hd => h2 d (by simp [hd])) h.2
      rw [hab, this]

theorem digits_eq_of_rendering (n : Nat) (l : List Nat) (hl : ∀ d ∈ l, d < 10)
    (h : ((Nat.digits 10 n).map decDigit).reverse = (l.map decDigit).reverse) :
    Nat.digits 10 n = l :=
  map_decDigit_injective _ _ (fun _ hd => Nat.digits_lt_base (by decide) hd) hl
    (List.reverse_injective h)

theorem numberToString_injective (n m : Nat) (h : numberToString n = numberToString m) :
    n = m := by
  unfold numberToString at h
  have h0 : ∀ k : Nat, k ≠ 0 →
      ((Nat.digits 10 k).map decDigit).reverse ≠ ['0'] := by
    intro k hk hc
    have hd : Nat.digits 10 k = [0] :=
      digits_eq_of_rendering k [0] (by simp) (by simpa [decDigit] using hc)
    have := Nat.ofDigits_digits 10 k
    rw [hd] at this
    simp [Nat.ofDigits] at this
    exact hk this.symm
  have h' := congrArg String.data h
  simp only at h'
  by_cases hn : n = 0
  · by_cases hm : m = 0
    · rw [hn, hm]
    · rw [if_pos hn, if_neg hm] at h'
      exact absurd h'.symm (h0 m hm)
  · by_cases hm : m = 0
    · rw [if_neg hn, if_pos hm] at h'
      exact absurd h' (h0 n hn)
    · rw [if_neg hn, if_neg hm] at h'
      have := digits_eq_of_rendering n (Nat.digits 10 m)
        (fun _ hd => Nat.digits_lt_base (by decide) hd) h'
      exact Nat.digits_inj_iff.mp this

theorem string_append_left_cancel (a b c : String) (h : a ++ b = a ++ c) : b = c := by
  apply String.ext
  have := congrArg String.data h
  simpa [String.data_append] using this

/-- C10 (counterexample): two calls of `generateProof` with the same prompt and answer
that read the same clock value return the same token. -/
theorem generateProof_repeats_within_one_clock_value :
    ¬ (ZeroGClient.generateProof "Treasury status" ZeroGClient.treasuryStatus 1700000000000
      ≠ ZeroGClient.generateProof "Treasury status" ZeroGClient.treasuryStatus 1700000000000) :=
  fun h => h rfl

/-- C10 (amended): the token of `generateProof` is a function of the prompt, the answer
and the clock value read: two calls with the same prompt and answer that read the same
clock value return the same token.  When the two clock values differ, the two hashed
strings differ, and the two tokens are equal exactly when the SHA-256 digests of these
two strings are equal. -/
theorem generateProof_same_pair (prompt answer : String) (now1 now2 : Nat) :
    (now1 = now2 →
      ZeroGClient.generateProof prompt answer now1
        = ZeroGClient.generateProof prompt answer now2) ∧
    (now1 ≠ now2 →
      prompt ++ answer ++ numberToString now1 ≠ prompt ++ answer ++ numberToString now2) ∧
    (ZeroGClient.generateProof prompt answer now1 = ZeroGClient.generateProof prompt answer now2 ↔
      Sha256.hexDigest (toUtf8Bytes (prompt ++ answer ++ numberToString now1))
        = Sha256.hexDigest (toUtf8Bytes (prompt ++ answer ++ numberToString now2))) := by
  refine ⟨fun h => by rw [h], ?_, ?_⟩
  · intro hne h
    exact hne (numberToString_injective _ _ (string_append_left_cancel _ _ _ h))
  · unfold ZeroGClient.generateProof
    constructor
    · intro h
      exact string_append_left_cancel _ _ _ h
    · intro h
      simp only [h]

/-! ## Claims on the connection state -/

theorem envOr_ne_empty (value : Option String) (fallback : String) (h : fallback ≠ "") :
    (jsLength (envOr value fallback) == 0) = false := by
  have hf : jsLength fallback ≠ 0 := fun h0 => h ((jsLength_eq_zero_iff _).mp h0)
  unfold envOr
  cases value with
  | none => simpa using hf
  | some s =>
    by_cases hs : jsLength s = 0
    · simpa [hs] using hf
    · simp [hs]

theorem envTruthy_iff (value : Option String) :
    envTruthy value = true ↔ ∃ key : String, value = some key ∧ key ≠ "" := by
  cases value with
  | none => simp [envTruthy]
  | some s =>
    have h := jsLength_eq_zero_iff s
    simp [envTruthy, h]

/-- C11: `initializeBlockchain`, run on the freshly loaded module, returns normally for
every environment and every behaviour of the `ethers` constructors; afterwards the
contract handle is set (Connected) exactly when `PRIVATE_KEY` is set and not empty and the
provider, the wallet and the contract were all constructed without an error, and it is
unset (MockMode) in every other case. -/
theorem initializeBlockchain_connected_iff (env : ProcessEnv) (ethers : Ethers) :
    (initializeBlockchain env ethers initialState).1 = .ok () ∧
    ((initializeBlockchain env ethers initialState).2.connection = .connected ↔
      ∃ (key : String) (provider : Provider) (wallet : Wallet) (contract : ContractHandle),
        env.PRIVATE_KEY = some key ∧ key ≠ "" ∧
        ethers.newJsonRpcProvider
          (envOr env.SEPOLIA_RPC_URL "https://evmrpc-testnet.0g.ai") = .ok provider ∧
        ethers.newWallet key provider = .ok wallet ∧
        ethers.newContract
          (envOr env.CHATBOT_VERIFIER_ADDRESS "0x0B1eB634c9F6Cf22B831ca5B7B66E8CBeD3BfC78")
          wallet = .ok contract ∧
        (initializeBlockchain env ethers initialState).2.contract = some contract) ∧
    ((initializeBlockchain env ethers initialState).2.connection ≠ .connected →
      (initializeBlockchain env ethers initialState).2.connection = .mockMode ∧
      (initializeBlockchain env ethers initialState).2.contract = none) := by
  have haddr := envOr_ne_empty env.CHATBOT_VERIFIER_ADDRESS
    "0x0B1eB634c9F6Cf22B831ca5B7B66E8CBeD3BfC78" (by decide)
  refine ⟨?_, ?_, ?_⟩
  · unfold initializeBlockchain
    split <;> rfl
  · unfold initializeBlockchain initializeBody
    simp only [haddr]
    cases hkey : env.PRIVATE_KEY with
    | none => simp [envTruthy, ServerState.connection, initialState]
    | some key =>
      by_cases hk : key = ""
      · subst hk
        simp [envTruthy, jsLength, utf16Units, ServerState.connection, initialState]
      · have hk2 : envTruthy (some key) = true := (envTruthy_iff _).mpr ⟨key, rfl, hk⟩
        simp only [hk2, envValue]
        cases hp : ethers.newJsonRpcProvider
            (envOr env.SEPOLIA_RPC_URL "https://evmrpc-testnet.0g.ai") with
        | error e => simp [ServerState.connection, initialState]
        | ok provider =>
          cases hw : ethers.newWallet key provider with
          | error e => simp [ServerState.connection, initialState, hw]
          | ok wallet =>
            cases hc : ethers.newContract
                (envOr env.CHATBOT_VERIFIER_ADDRESS
                  "0x0B1eB634c9F6Cf22B831ca5B7B66E8CBeD3BfC78") wallet with
            | error e => simp [ServerState.connection, initialState, hw, hc]
            | ok contract => simp [ServerState.connection, hk, hw, hc]
  · intro h
    unfold ServerState.connection at h ⊢
    cases hc : (initializeBlockchain env ethers initialState).2.contract with
    | none => simp
    | some c => simp [hc] at h

theorem serve_state (parseInt : String → Option Int) (loaded : Int) (st : ServerState)
    (env : RequestEnv) (req : Request) : (serve parseInt loaded st env req).2 = st := by
  cases req <;> rfl

theorem serveAll_state (parseInt : String → Option Int) (loaded : Int) (st : ServerState)
    (reqs : List (RequestEnv × Request)) : (serveAll parseInt loaded st reqs).2 = st := by
  induction reqs generalizing st with
  | nil => rfl
  | cons head rest ih =>
    obtain ⟨env, req⟩ := head
    unfold serveAll
    simp only
    rw [ih, serve_state]

/-- C12: each of the five request handlers leaves the module variables, and so the
connection state, as it found them, for every request and every outcome of the ledger,
the generator, the random source and the clock; hence after any sequence of requests the
connection state is the one the sequence started in, and a server in MockMode after
initialisation is in MockMode after every sequence of requests. -/
theorem handlers_preserve_connection_state (parseInt : String → Option Int) (loaded : Int)
    (st : ServerState) :
    (∀ (env : RequestEnv) (req : Request),
      (serve parseInt loaded st env req).2 = st ∧
      (serve parseInt loaded st env req).2.connection = st.connection) ∧
    (∀ reqs : List (RequestEnv × Request),
      (serveAll parseInt loaded st reqs).2.connection = st.connection) ∧
    (∀ (env : ProcessEnv) (ethers : Ethers) (reqs : List (RequestEnv × Request)),
      (initializeBlockchain env ethers initialState).2.connection = .mockMode →
      (serveAll parseInt loaded (initializeBlockchain env ethers initialState).2
        reqs).2.connection = .mockMode) := by
  refine ⟨fun env req => ?_, fun reqs => ?_, fun env ethers reqs h => ?_⟩
  · rw [serve_state]
    exact ⟨rfl, rfl⟩
  · rw [serveAll_state]
  · rw [serveAll_state]
    exact h

/-! ## Claims on the ledger operations of the handlers -/

theorem createRequestOnChain_effects (c : Contract) (promptHash : String) :
    (∃ rest, (createRequestOnChain c promptHash).2 = .createRequest promptHash :: rest) ∧
    (∀ e ∈ (createRequestOnChain c promptHash).2, e.isSubmitAnswer = false) ∧
    (∀ h, Effect.createRequest h ∈ (createRequestOnChain c promptHash).2 → h = promptHash) := by
  unfold createRequestOnChain
  split
  · simp [Effect.isSubmitAnswer]
  · split
    · simp [Effect.isSubmitAnswer]
    · split
      · simp [Effect.isSubmitAnswer]
      · split <;> simp [Effect.isSubmitAnswer]

theorem obtainRequestId_effects (contract : Option Contract) (random : Rand)
    (promptHash : String) :
    (∀ e ∈ (obtainRequestId contract random promptHash).2, e.isSubmitAnswer = false) ∧
    (∀ h, Effect.createRequest h ∈ (obtainRequestId contract random promptHash).2 →
      h = promptHash) ∧
    (∀ c, contract = some c →
      ∃ rest, (obtainRequestId contract random promptHash).2
        = .createRequest promptHash :: rest) := by
  cases contract with
  | none =>
    refine ⟨?_, ?_, ?_⟩
    · simp [obtainRequestId, Effect.isSubmitAnswer]
    · simp [obtainRequestId]
    · simp
  | some c =>
    obtain ⟨⟨rest, h1⟩, h2, h3⟩ := createRequestOnChain_effects c promptHash
    unfold obtainRequestId
    simp only
    split
    next requestId effects heq =>
      rw [heq] at h1 h2 h3
      exact ⟨h2, h3, fun _ _ => ⟨rest, h1⟩⟩
    next e effects heq =>
      rw [heq] at h1 h2 h3
      simp only at h1 h2 h3
      refine ⟨?_, ?_, fun _ _ => ⟨rest ++ [.mathRandom], by simp [h1]⟩⟩
      · intro e he
        simp only [List.mem_append, List.mem_singleton] at he
        rcases he with he | he
        · exact h2 e he
        · rw [he]
          rfl
      · intro h hh
        simp only [List.mem_append, List.mem_singleton] at hh
        rcases hh with hh | hh
        · exact h3 h hh
        · cases hh

theorem submitAnswerOnChain_count (contract : Option Contract) (requestId : Nat)
    (aiResponse : InferenceResponse) :
    ((submitAnswerOnChain contract requestId aiResponse).filter Effect.isSubmitAnswer).length
      = (if contract.isSome then 1 else 0) := by
  cases contract with
  | none => simp [submitAnswerOnChain]
  | some c =>
    unfold submitAnswerOnChain
    simp only
    split
    · simp [Effect.isSubmitAnswer]
    · split <;> simp [Effect.isSubmitAnswer]

theorem filter_isSubmitAnswer_eq_nil (l : List Effect)
    (h : ∀ e ∈ l, e.isSubmitAnswer = false) : l.filter Effect.isSubmitAnswer = [] := by
  rw [List.filter_eq_nil_iff]
  intro e he
  simp [h e he]

/-- C13: for a non-empty string prompt, the chat handler calls `submitAnswer` once when
there is a contract handle and not at all when there is none; the call comes after the
call of the generator, none comes before it; and without a contract handle the handler
performs no ledger operation: its effects are the hash, one random draw and the
generation. -/
theorem submitAnswer_attempted_iff_connected (lowerTable : Char → List Char) (now : Nat)
    (contract : Option Contract) (random : Rand) (clock : Nat) (p : String) (hp : p ≠ "") :
    (((chatHandler contract (zeroGGenerate lowerTable now) random clock (.string p)).2.filter
        Effect.isSubmitAnswer).length = (if contract.isSome then 1 else 0)) ∧
    (∃ before after : List Effect,
      (chatHandler contract (zeroGGenerate lowerTable now) random clock (.string p)).2
        = before ++ [.generateResponse p] ++ after ∧
      (∀ e ∈ before, e.isSubmitAnswer = false) ∧
      (after.filter Effect.isSubmitAnswer).length = (if contract.isSome then 1 else 0)) ∧
    (contract = none →
      (chatHandler contract (zeroGGenerate lowerTable now) random clock (.string p)).2
        = [.keccak256 p, .mathRandom, .generateResponse p] ∧
      ∀ e ∈ (chatHandler contract (zeroGGenerate lowerTable now) random clock (.string p)).2,
        e.isLedgerCall = false) := by
  have htrace := chatHandler_effects_of_generated contract (zeroGGenerate lowerTable now)
    random clock p _ hp rfl
  have hid := (obtainRequestId_effects contract random (keccak256 (toUtf8Bytes p))).1
  have hbefore : ∀ e ∈ [Effect.keccak256 p]
      ++ (obtainRequestId contract random (keccak256 (toUtf8Bytes p))).2,
      e.isSubmitAnswer = false := by
    intro e he
    simp only [List.mem_append, List.mem_singleton] at he
    rcases he with he | he
    · rw [he]
      rfl
    · exact hid e he
  have hcount := submitAnswerOnChain_count contract
    (obtainRequestId contract random (keccak256 (toUtf8Bytes p))).1
    (ZeroGClient.generateResponse lowerTable now
      ⟨p, some "0g-governance-assistant-v1", some 0.7, some 1000⟩)
  refine ⟨?_, ⟨_, _, htrace, hbefore, hcount⟩, ?_⟩
  · rw [htrace, List.filter_append, List.length_append, hcount, List.filter_append,
      filter_isSubmitAnswer_eq_nil _ hbefore]
    simp [Effect.isSubmitAnswer]
  · intro hnone
    subst hnone
    rw [htrace]
    refine ⟨rfl, ?_⟩
    intro e he
    simp only [obtainRequestId, submitAnswerOnChain, List.append_nil, List.cons_append,
      List.nil_append, List.mem_cons, List.mem_singleton, List.not_mem_nil, or_false] at he
    rcases he with he | he | he <;> (rw [he]; rfl)

/-- C13 at a concrete input: the prompt "Treasury status" with a contract handle all of
whose transactions are confirmed. -/
theorem submitAnswer_attempted_iff_connected_witness :
    ((chatHandler (some (confirmingContract 7 [⟨7, "0xaa", "0xf39f"⟩]))
        (zeroGGenerate (fun c => [c]) 1700000000000) ⟨1, 4, by decide⟩ 1700000000001
        (.string "Treasury status")).2.filter Effect.isSubmitAnswer).length = 1 :=
  (submitAnswer_attempted_iff_connected (fun c => [c]) 1700000000000
    (some (confirmingContract 7 [⟨7, "0xaa", "0xf39f"⟩])) ⟨1, 4, by decide⟩ 1700000000001
    "Treasury status" (by decide)).1

/-- C14: without a contract handle (MockMode) the handlers of `GET /api/request/:id` and
`POST /api/verify` answer 400 for every id and body and make no ledger call.  With a
contract handle they never answer 400: they answer 200 with the data of the ledger when
its calls return, and 500 when a call throws. -/
theorem read_endpoints_status (parseInt : String → Option Int) (clock : Nat) (param : String)
    (requestId signature : JsValue) :
    requestHandler parseInt none param = (⟨400, .error "Blockchain not connected"⟩, []) ∧
    verifyHandler none clock requestId signature
      = (⟨400, .error "Blockchain not connected"⟩, []) ∧
    (∀ c : LedgerReads,
      (requestHandler parseInt (some c) param).1.status ≠ 400 ∧
      (verifyHandler (some c) clock requestId signature).1.status ≠ 400 ∧
      (∀ request answer, c.getRequest (parseInt param) = .ok request →
        c.getAnswer (parseInt param) = .ok answer →
        (requestHandler parseInt (some c) param).1
          = ⟨200, .details (parseInt param) request answer⟩) ∧
      (∀ e, c.getRequest (parseInt param) = .error e →
        (requestHandler parseInt (some c) param).1
          = ⟨500, .error "Failed to fetch request details"⟩) ∧
      (∀ request e, c.getRequest (parseInt param) = .ok request →
        c.getAnswer (parseInt param) = .error e →
        (requestHandler parseInt (some c) param).1
          = ⟨500, .error "Failed to fetch request details"⟩) ∧
      (∀ isValid, c.verifySignature requestId signature = .ok isValid →
        (verifyHandler (some c) clock requestId signature).1
          = ⟨200, .verified requestId isValid clock⟩) ∧
      (∀ e, c.verifySignature requestId signature = .error e →
        (verifyHandler (some c) clock requestId signature).1
          = ⟨500, .error "Failed to verify signature"⟩)) ∧
    (∀ (loaded : Int) (st : ServerState) (env : RequestEnv), st.connection = .mockMode →
      (serve parseInt loaded st env (.request param)).1
        = .read ⟨400, .error "Blockchain not connected"⟩ ∧
      (serve parseInt loaded st env (.verify requestId signature)).1
        = .read ⟨400, .error "Blockchain not connected"⟩) := by
  refine ⟨rfl, rfl, fun c => ⟨?_, ?_, ?_, ?_, ?_, ?_, ?_⟩, ?_⟩
  · unfold requestHandler
    simp only
    cases c.getRequest (parseInt param) with
    | error e => simp
    | ok request =>
      cases c.getAnswer (parseInt param) with
      | error e => simp
      | ok answer => simp
  · unfold verifyHandler
    simp only
    cases c.verifySignature requestId signature with
    | error e => simp
    | ok isValid => simp
  · intro request answer h1 h2
    simp only [requestHandler, h1, h2]
  · intro e h1
    simp only [requestHandler, h1]
  · intro request e h1 h2
    simp only [requestHandler, h1, h2]
  · intro isValid h1
    simp only [verifyHandler, h1]
  · intro e h1
    simp only [verifyHandler, h1]
  · intro loaded st env hmock
    have hnone : st.contract = none := by
      unfold ServerState.connection at hmock
      cases hc : st.contract with
      | none => rfl
      | some h => simp [hc] at hmock
    simp only [serve, hnone, Option.map_none']
    exact ⟨rfl, rfl⟩

/-! ## Claims on the content of the chat response -/

theorem templates_ne_empty :
    ZeroGClient.proposalsSummary ≠ "" ∧ ZeroGClient.tokenomicsOverview ≠ "" ∧
    ZeroGClient.votingProcess ≠ "" ∧ ZeroGClient.treasuryStatus ≠ "" ∧
    ZeroGClient.defaultHelp ≠ "" := by
  refine ⟨?_, ?_, ?_, ?_, ?_⟩ <;> decide!

theorem generateMockResponse_ne_empty (lowerTable : Char → List Char) (prompt : String) :
    ZeroGClient.generateMockResponse lowerTable prompt ≠ "" := by
  rcases generateMockResponse_cases lowerTable prompt with h | h | h | h | h <;> rw [h]
  · exact templates_ne_empty.1
  · exact templates_ne_empty.2.1
  · exact templates_ne_empty.2.2.1
  · exact templates_ne_empty.2.2.2.1
  · exact templates_ne_empty.2.2.2.2

/-- C15 (counterexample): the prompt made of the single code unit `0xD800`, an unpaired
high surrogate (the body `{"prompt": "\ud800"}`), is a non-empty string and passes the
validation; `ethers.toUtf8Bytes` throws on it at the hash step and the handler answers
500, a body with no request id and no text. -/
theorem unpaired_surrogate_prompt_gets_500 :
    ([0xD800] : List Nat).length ≠ 0 ∧
    ethersToUtf8Bytes [0xD800] = .error "invalid surrogate pair" ∧
    chatHandlerUpToHash [0xD800]
      = .error ⟨500, .error "Internal server error" (some "invalid surrogate pair")⟩ ∧
    (⟨500, .error "Internal server error" (some "invalid surrogate pair")⟩ :
      HttpResponse).requestId? = none ∧
    (∀ r : ChatResponse,
      (⟨500, .error "Internal server error" (some "invalid surrogate pair")⟩ : HttpResponse)
        ≠ ⟨200, .chat r⟩) := by
  refine ⟨by decide, rfl, rfl, rfl, ?_⟩
  intro r h
  cases h

/-- C15 (amended): for a non-empty string prompt without unpaired surrogates the chat
handler of the running backend answers 200 with a body that holds a request id and a
non-empty text; the text is what `generateMockResponse` returns for the prompt, which for
every input string is one of the five templates, none of them empty.  On such a prompt
`ethers.toUtf8Bytes` does not throw: the hash step yields `keccak256` of its UTF-8
bytes. -/
theorem chat_returns_requestId_and_text (lowerTable : Char → List Char) (now : Nat)
    (contract : Option Contract) (random : Rand) (clock : Nat) (p : String) (hp : p ≠ "") :
    (∃ r : ChatResponse,
      (chatHandler contract (zeroGGenerate lowerTable now) random clock (.string p)).1
        = ⟨200, .chat r⟩ ∧
      (chatHandler contract (zeroGGenerate lowerTable now) random clock (.string p)).1.requestId?
        = some r.requestId ∧
      r.text = ZeroGClient.generateMockResponse lowerTable p ∧ r.text ≠ "") ∧
    (∀ s : String,
      ZeroGClient.generateMockResponse lowerTable s ∈
        [ZeroGClient.proposalsSummary, ZeroGClient.tokenomicsOverview,
          ZeroGClient.votingProcess, ZeroGClient.treasuryStatus, ZeroGClient.defaultHelp]) ∧
    (∀ t ∈ [ZeroGClient.proposalsSummary, ZeroGClient.tokenomicsOverview,
        ZeroGClient.votingProcess, ZeroGClient.treasuryStatus, ZeroGClient.defaultHelp],
      t ≠ "") ∧
    chatHandlerUpToHash (utf16Units p.toList) = .ok (keccak256 (toUtf8Bytes p)) := by
  refine ⟨⟨_, chatHandler_of_generated contract _ random clock p _ hp rfl, ?_, rfl,
    generateMockResponse_ne_empty lowerTable p⟩, ?_, ?_, ?_⟩
  · rw [chatHandler_of_generated contract _ random clock p _ hp rfl]
    rfl
  · intro s
    simp only [List.mem_cons, List.mem_singleton, List.not_mem_nil, or_false]
    exact generateMockResponse_cases lowerTable s
  · intro t ht
    simp only [List.mem_cons, List.mem_singleton, List.not_mem_nil, or_false] at ht
    rcases ht with h | h | h | h | h <;> rw [h]
    · exact templates_ne_empty.1
    · exact templates_ne_empty.2.1
    · exact templates_ne_empty.2.2.1
    · exact templates_ne_empty.2.2.2.1
    · exact templates_ne_empty.2.2.2.2
  · have hlen : ((utf16Units p.toList).length == 0) = false := by
      have h0 : jsLength p ≠ 0 := fun h => hp ((jsLength_eq_zero_iff p).mp h)
      exact beq_eq_false_iff_ne.mpr h0
    unfold chatHandlerUpToHash
    simp only [hlen, Bool.false_eq_true, if_false, ethersToUtf8Bytes_string]

/-- C15 (amended) at a concrete input: the prompt "Treasury status" with a contract handle
all of whose calls throw. -/
theorem chat_returns_requestId_and_text_witness :
    ∃ r : ChatResponse,
      (chatHandler (some rejectingContract) (zeroGGenerate (fun c => [c]) 1700000000000)
        ⟨1, 4, by decide⟩ 1700000000001 (.string "Treasury status")).1 = ⟨200, .chat r⟩ ∧
      (chatHandler (some rejectingContract) (zeroGGenerate (fun c => [c]) 1700000000000)
        ⟨1, 4, by decide⟩ 1700000000001 (.string "Treasury status")).1.requestId?
        = some r.requestId ∧
      r.text = ZeroGClient.generateMockResponse (fun c => [c]) "Treasury status" ∧
      r.text ≠ "" :=
  (chat_returns_requestId_and_text (fun c => [c]) 1700000000000 (some rejectingContract)
    ⟨1, 4, by decide⟩ 1700000000001 "Treasury status" (by decide)).1

/-- C16: for a non-empty prompt, the request id in the response is
`floor(Math.random() * 1000000)`, the integer part of the double product, a natural number
below 1000000 for every double of `[0, 1)` the random source returns, both without a
contract handle and when the `createRequest` block fails. -/
theorem local_requestId_range (lowerTable : Char → List Char) (now : Nat) (random : Rand)
    (clock : Nat) (p : String) (hp : p ≠ "") (hdouble : random.IsDouble) :
    (∃ n : Nat,
      (chatHandler none (zeroGGenerate lowerTable now) random clock (.string p)).1.requestId?
        = some n ∧ n = randomRequestId random ∧ 0 ≤ n ∧ n < 1000000) ∧
    (∀ (c : Contract) (e : String),
      (createRequestOnChain c (keccak256 (toUtf8Bytes p))).1 = .error e →
      ∃ n : Nat,
        (chatHandler (some c) (zeroGGenerate lowerTable now) random clock
          (.string p)).1.requestId? = some n ∧
        n = randomRequestId random ∧ 0 ≤ n ∧ n < 1000000) := by
  have hlt := randomRequestId_lt_of_double random hdouble
  constructor
  · refine ⟨randomRequestId random, ?_, rfl, Nat.zero_le _, hlt⟩
    rw [chatHandler_of_generated _ _ _ _ _ _ hp rfl]
    rfl
  · intro c e h
    refine ⟨randomRequestId random, ?_, rfl, Nat.zero_le _, hlt⟩
    rw [chatHandler_of_generated _ _ _ _ _ _ hp rfl]
    simp only [HttpResponse.requestId?]
    rw [obtainRequestId_of_error c random _ e h]

/-- C16 at a concrete input: the prompt "Treasury status" and the largest draw below 1
that a double can hold, `1 - 2^-53`, in mock mode: the product rounds to the double just
below 1000000 and the request id is 999999. -/
theorem local_requestId_range_witness :
    (∃ n : Nat,
      (chatHandler none (zeroGGenerate (fun c => [c]) 1700000000000)
        ⟨2 ^ 53 - 1, 2 ^ 53, by decide⟩ 1700000000001
        (.string "Treasury status")).1.requestId? = some n ∧
      n = randomRequestId ⟨2 ^ 53 - 1, 2 ^ 53, by decide⟩ ∧ 0 ≤ n ∧ n < 1000000) ∧
    randomRequestId ⟨2 ^ 53 - 1, 2 ^ 53, by decide⟩ = 999999 :=
  ⟨(local_requestId_range (fun c => [c]) 1700000000000 ⟨2 ^ 53 - 1, 2 ^ 53, by decide⟩
    1700000000001 "Treasury status" (by decide)
    ⟨2 ^ 53 - 1, 53, by decide, by decide, by decide⟩).1, by decide⟩

/-- C17: for a non-empty string prompt, every `createRequest` call the chat handler
makes carries `keccak256` of the UTF-8 bytes of the prompt exactly as received, whatever
the contract handle, the generator, the random draw and the clock are; with a contract
handle that call is the first thing done after the hash is computed.  The bytes hashed
are those of the prompt itself: a prompt that differs in case or by a blank is hashed
from different bytes. -/
theorem promptHash_is_keccak_of_prompt (contract : Option Contract)
    (generate : InferenceRequest → Except String InferenceResponse)
    (random : Rand) (clock : Nat) (p : String) (hp : p ≠ "") :
    (∀ h : String,
      Effect.createRequest h ∈ (chatHandler contract generate random clock (.string p)).2 →
      h = keccak256 (toUtf8Bytes p)) ∧
    (∀ c : Contract, contract = some c →
      ∃ rest : List Effect,
        (chatHandler contract generate random clock (.string p)).2
          = .keccak256 p :: .createRequest (keccak256 (toUtf8Bytes p)) :: rest) ∧
    toUtf8Bytes "Vote" ≠ toUtf8Bytes "vote" ∧ toUtf8Bytes " vote" ≠ toUtf8Bytes "vote" := by
  obtain ⟨_, h2, h3⟩ := obtainRequestId_effects contract random (keccak256 (toUtf8Bytes p))
  have htrace : ∃ tail : List Effect,
      (chatHandler contract generate random clock (.string p)).2
        = [.keccak256 p] ++ (obtainRequestId contract random (keccak256 (toUtf8Bytes p))).2
          ++ [.generateResponse p] ++ tail ∧
      ∀ h, Effect.createRequest h ∉ tail := by
    unfold chatHandler
    rw [valid_of_ne_empty p hp]
    simp only [Bool.false_eq_true, if_false, stringOf, ethersToUtf8Bytes_string]
    split
    · exact ⟨[], by simp, by simp⟩
    · refine ⟨_, rfl, ?_⟩
      intro h hmem
      unfold submitAnswerOnChain at hmem
      split at hmem
      · simp only at hmem
        split at hmem
        · simp at hmem
        · split at hmem <;> simp at hmem
      · simp at hmem
  obtain ⟨tail, ht, htail⟩ := htrace
  refine ⟨?_, ?_, by decide, by decide⟩
  · intro h hmem
    rw [ht] at hmem
    simp only [List.mem_append, List.mem_singleton] at hmem
    rcases hmem with ((hm | hm) | hm) | hm
    · cases hm
    · exact h2 h hm
    · cases hm
    · exact absurd hm (htail h)
  · intro c hc
    obtain ⟨rest, hrest⟩ := h3 c hc
    exact ⟨rest ++ [.generateResponse p] ++ tail, by rw [ht, hrest]; simp⟩

/-- C17 at a concrete input: the prompt "Treasury status" with a contract handle all of
whose calls throw. -/
theorem promptHash_is_keccak_of_prompt_witness :
    ∃ rest : List Effect,
      (chatHandler (some rejectingContract) (zeroGGenerate (fun c => [c]) 1700000000000)
        ⟨1, 4, by decide⟩ 1700000000001 (.string "Treasury status")).2
        = .keccak256 "Treasury status"
          :: .createRequest (keccak256 (toUtf8Bytes "Treasury status")) :: rest :=
  (promptHash_is_keccak_of_prompt (some rejectingContract)
    (zeroGGenerate (fun c => [c]) 1700000000000) ⟨1, 4, by decide⟩ 1700000000001
    "Treasury status" (by decide)).2.1 rejectingContract rfl

/-- C18: when the generator throws on a non-empty string prompt, the chat handler
answers 500 with the message of the error, a body without text, proof or request id,
and calls `submitAnswer` not at all. -/
theorem generation_failure_gives_500 (contract : Option Contract)
    (generate : InferenceRequest → Except String InferenceResponse)
    (random : Rand) (clock : Nat) (p message : String) (hp : p ≠ "")
    (hgen : generate ⟨p, some "0g-governance-assistant-v1", some 0.7, some 1000⟩
      = .error message) :
    (chatHandler contract generate random clock (.string p)).1
      = ⟨500, .error "Internal server error" (some message)⟩ ∧
    (chatHandler contract generate random clock (.string p)).1.requestId? = none ∧
    (∀ e ∈ (chatHandler contract generate random clock (.string p)).2,
      e.isSubmitAnswer = false) := by
  have hid := (obtainRequestId_effects contract random (keccak256 (toUtf8Bytes p))).1
  have hres : (chatHandler contract generate random clock (.string p)).1
      = ⟨500, .error "Internal server error" (some message)⟩ := by
    unfold chatHandler
    rw [valid_of_ne_empty p hp]
    simp only [Bool.false_eq_true, if_false, stringOf, ethersToUtf8Bytes_string, hgen]
  have htrace : (chatHandler contract generate random clock (.string p)).2
      = [.keccak256 p] ++ (obtainRequestId contract random (keccak256 (toUtf8Bytes p))).2
        ++ [.generateResponse p] := by
    unfold chatHandler
    rw [valid_of_ne_empty p hp]
    simp only [Bool.false_eq_true, if_false, stringOf, ethersToUtf8Bytes_string, hgen]
  refine ⟨hres, by rw [hres]; rfl, ?_⟩
  intro e he
  rw [htrace] at he
  simp only [List.mem_append, List.mem_singleton] at he
  rcases he with (he | he) | he
  · rw [he]
    rfl
  · exact hid e he
  · rw [he]
    rfl

/-- C18 at a concrete input: the prompt "Treasury status", a generator that throws and a
contract handle all of whose transactions are confirmed. -/
theorem generation_failure_gives_500_witness :
    (chatHandler (some (confirmingContract 7 [⟨7, "0xaa", "0xf39f"⟩])) failingGenerate
        ⟨1, 4, by decide⟩ 1700000000001 (.string "Treasury status")).1
      = ⟨500, .error "Internal server error" (some "inference network unavailable")⟩ :=
  (generation_failure_gives_500 (some (confirmingContract 7 [⟨7, "0xaa", "0xf39f"⟩]))
    failingGenerate ⟨1, 4, by decide⟩ 1700000000001 "Treasury status"
    "inference network unavailable" (by decide) rfl).1

/-! ## Claims on the selection of the template -/

theorem ascii_of_toLower_ascii (c : Char) (h : c.toLower.toNat < 128) : c.toNat < 128 := by
  unfold Char.toLower at h
  simp only at h
  split at h
  · omega
  · exact h

theorem lowerChars_of_ascii (lowerTable : Char → List Char) (l : List Char)
    (h : ∀ c ∈ l, c.toNat < 128) : ZeroGClient.lowerChars lowerTable l = l.map Char.toLower := by
  induction l with
  | nil => rfl
  | cons c cs ih =>
    have hc : c.toNat < 128 := h c (by simp)
    have hcs : ∀ d ∈ cs, d.toNat < 128 := fun d hd => h d (by simp [hd])
    simp [ZeroGClient.lowerChars, ZeroGClient.lowerChar, hc, ih hcs]

/-- A string that differs from the ASCII string `target` only in the case of its letters
is lower-cased to `target`. -/
theorem toLowerCase_of_case_variant (lowerTable : Char → List Char) (s target : String)
    (ht : ∀ c ∈ target.toList, c.toNat < 128)
    (h : s.toList.map Char.toLower = target.toList) :
    ZeroGClient.toLowerCase lowerTable s = target := by
  have hs : ∀ c ∈ s.toList, c.toNat < 128 := by
    intro c hc
    apply ascii_of_toLower_ascii
    apply ht
    rw [← h]
    exact List.mem_map_of_mem _ hc
  unfold ZeroGClient.toLowerCase
  rw [lowerChars_of_ascii lowerTable _ hs, h]
  rfl

theorem unitsInclude_of_isPrefix (short long : List Nat) (h : short <+: long)
    (hay : List Nat) (hin : unitsInclude long hay = true) : unitsInclude short hay = true := by
  induction hay with
  | nil =>
    unfold unitsInclude at hin ⊢
    rw [List.isPrefixOf_iff_prefix] at hin ⊢
    exact h.trans hin
  | cons u us ih =>
    unfold unitsInclude at hin ⊢
    rw [Bool.or_eq_true] at hin ⊢
    rcases hin with hin | hin
    · left
      rw [List.isPrefixOf_iff_prefix] at hin ⊢
      exact h.trans hin
    · right
      exact ih hin

theorem includes_token_of_tokenomics (s : String) (h : includes s "tokenomics" = true) :
    includes s "token" = true :=
  unitsInclude_of_isPrefix _ _ (by decide) _ h

/-- C19: each of the four commands of the default help text, in any casing of its
letters, selects its own template: "Summarize proposals" the summary of proposals,
"Explain tokenomics" the tokenomics overview, "How does voting work?" the voting process
and "Treasury status" the treasury status.  A prompt whose lower-case form contains
neither both of `summarize` and `proposal`, nor `token`, `voting`, `vote`, `treasury` or
`fund`, gets the default help text. -/
theorem generateMockResponse_commands (lowerTable : Char → List Char) :
    (∀ s : String, s.toList.map Char.toLower = "summarize proposals".toList →
      ZeroGClient.generateMockResponse lowerTable s = ZeroGClient.proposalsSummary) ∧
    (∀ s : String, s.toList.map Char.toLower = "explain tokenomics".toList →
      ZeroGClient.generateMockResponse lowerTable s = ZeroGClient.tokenomicsOverview) ∧
    (∀ s : String, s.toList.map Char.toLower = "how does voting work?".toList →
      ZeroGClient.generateMockResponse lowerTable s = ZeroGClient.votingProcess) ∧
    (∀ s : String, s.toList.map Char.toLower = "treasury status".toList →
      ZeroGClient.generateMockResponse lowerTable s = ZeroGClient.treasuryStatus) ∧
    ZeroGClient.generateMockResponse lowerTable "Summarize proposals"
      = ZeroGClient.proposalsSummary ∧
    ZeroGClient.generateMockResponse lowerTable "Explain tokenomics"
      = ZeroGClient.tokenomicsOverview ∧
    ZeroGClient.generateMockResponse lowerTable "How does voting work?"
      = ZeroGClient.votingProcess ∧
    ZeroGClient.generateMockResponse lowerTable "Treasury status"
      = ZeroGClient.treasuryStatus ∧
    ZeroGClient.generateMockResponse lowerTable "TREASURY STATUS"
      = ZeroGClient.treasuryStatus ∧
    (∀ prompt : String,
      ¬ (includes (ZeroGClient.toLowerCase lowerTable prompt) "summarize" = true ∧
          includes (ZeroGClient.toLowerCase lowerTable prompt) "proposal" = true) →
      includes (ZeroGClient.toLowerCase lowerTable prompt) "token" = false →
      includes (ZeroGClient.toLowerCase lowerTable prompt) "voting" = false →
      includes (ZeroGClient.toLowerCase lowerTable prompt) "vote" = false →
      includes (ZeroGClient.toLowerCase lowerTable prompt) "treasury" = false →
      includes (ZeroGClient.toLowerCase lowerTable prompt) "fund" = false →
      ZeroGClient.generateMockResponse lowerTable prompt = ZeroGClient.defaultHelp) ∧
    ZeroGClient.generateMockResponse lowerTable "Hello, who are you?"
      = ZeroGClient.defaultHelp := by
  have h1 : ∀ s : String, s.toList.map Char.toLower = "summarize proposals".toList →
      ZeroGClient.generateMockResponse lowerTable s = ZeroGClient.proposalsSummary := by
    intro s hs
    unfold ZeroGClient.generateMockResponse
    rw [toLowerCase_of_case_variant lowerTable s _ (by decide) hs]
    rfl
  have h2 : ∀ s : String, s.toList.map Char.toLower = "explain tokenomics".toList →
      ZeroGClient.generateMockResponse lowerTable s = ZeroGClient.tokenomicsOverview := by
    intro s hs
    unfold ZeroGClient.generateMockResponse
    rw [toLowerCase_of_case_variant lowerTable s _ (by decide) hs]
    rfl
  have h3 : ∀ s : String, s.toList.map Char.toLower = "how does voting work?".toList →
      ZeroGClient.generateMockResponse lowerTable s = ZeroGClient.votingProcess := by
    intro s hs
    unfold ZeroGClient.generateMockResponse
    rw [toLowerCase_of_case_variant lowerTable s _ (by decide) hs]
    rfl
  have h4 : ∀ s : String, s.toList.map Char.toLower = "treasury status".toList →
      ZeroGClient.generateMockResponse lowerTable s = ZeroGClient.treasuryStatus := by
    intro s hs
    unfold ZeroGClient.generateMockResponse
    rw [toLowerCase_of_case_variant lowerTable s _ (by decide) hs]
    rfl
  refine ⟨h1, h2, h3, h4, h1 _ (by decide), h2 _ (by decide), h3 _ (by decide),
    h4 _ (by decide), h4 _ (by decide), ?_, ?_⟩
  · intro prompt hsp htoken hvoting hvote htreasury hfund
    have htokenomics : includes (ZeroGClient.toLowerCase lowerTable prompt) "tokenomics"
        = false := by
      by_contra hc
      rw [Bool.not_eq_false] at hc
      rw [includes_token_of_tokenomics _ hc] at htoken
      exact Bool.noConfusion htoken
    unfold ZeroGClient.generateMockResponse
    simp only [htoken, htokenomics, hvoting, hvote, htreasury, hfund, Bool.or_self,
      Bool.false_eq_true, if_false]
    rw [if_neg]
    rw [Bool.and_eq_true]
    exact hsp
  · unfold ZeroGClient.generateMockResponse
    rw [toLowerCase_of_case_variant lowerTable "Hello, who are you?" "hello, who are you?"
      (by decide) (by decide)]
    rfl

/-! ## Claims on the total of the usage counters -/

/-- C20: the usage counters of `generateResponse` satisfy
`promptTokens + completionTokens ≤ totalTokens ≤ promptTokens + completionTokens + 1`,
where `totalTokens` is the sum of the lengths of the prompt and of the answer text divided
by 4, rounded down; it is not always the sum of the two other counters: for the prompt
"Treasury status" they are 3, 195 and 199. -/
theorem totalTokens_bounds (lowerTable : Char → List Char) (now : Nat)
    (request : InferenceRequest) :
    (ZeroGClient.generateResponse lowerTable now request).usage.promptTokens
        + (ZeroGClient.generateResponse lowerTable now request).usage.completionTokens
      ≤ (ZeroGClient.generateResponse lowerTable now request).usage.totalTokens ∧
    (ZeroGClient.generateResponse lowerTable now request).usage.totalTokens
      ≤ (ZeroGClient.generateResponse lowerTable now request).usage.promptTokens
        + (ZeroGClient.generateResponse lowerTable now request).usage.completionTokens + 1 ∧
    (ZeroGClient.generateResponse lowerTable now request).usage.totalTokens
      = (jsLength request.prompt
        + jsLength (ZeroGClient.generateResponse lowerTable now request).text) / 4 ∧
    (ZeroGClient.generateResponse lowerTable now
      ⟨"Treasury status", some "0g-governance-assistant-v1", some 0.7, some 1000⟩).usage
      = ⟨3, 195, 199⟩ := by
  refine ⟨?_, ?_, rfl, ?_⟩
  · show jsLength request.prompt / 4
        + jsLength (ZeroGClient.generateMockResponse lowerTable request.prompt) / 4
      ≤ (jsLength request.prompt
        + jsLength (ZeroGClient.generateMockResponse lowerTable request.prompt)) / 4
    omega
  · show (jsLength request.prompt
        + jsLength (ZeroGClient.generateMockResponse lowerTable request.prompt)) / 4
      ≤ jsLength request.prompt / 4
        + jsLength (ZeroGClient.generateMockResponse lowerTable request.prompt) / 4 + 1
    omega
  · have ht : ZeroGClient.generateMockResponse lowerTable "Treasury status"
        = ZeroGClient.treasuryStatus := by
      unfold ZeroGClient.generateMockResponse
      rw [toLowerCase_of_case_variant lowerTable "Treasury status" "treasury status"
        (by decide) (by decide)]
      rfl
    have hl : jsLength ZeroGClient.treasuryStatus = 781 := by decide!
    have hp : jsLength "Treasury status" = 15 := by decide
    simp only [ZeroGClient.generateResponse, ht, hl, hp]

/-! ## Claims on what the proof token depends on -/

theorem hexDigit_mem (n : Nat) : hexDigit n ∈ "0123456789abcdef".toList := by
  have h : ∀ k, k < 16 →
      "0123456789abcdef".toList.getD k '0' ∈ "0123456789abcdef".toList := by decide
  exact h (n % 16) (Nat.mod_lt _ (by decide))

theorem hexWord_mem (w : Nat) : ∀ c ∈ Sha256.hexWord w, c ∈ "0123456789abcdef".toList := by
  intro c hc
  simp only [Sha256.hexWord, List.mem_cons, List.mem_singleton, List.not_mem_nil, or_false] at hc
  rcases hc with h | h | h | h | h | h | h | h <;> (rw [h]; exact hexDigit_mem _)

theorem hexDigest_chars (msg : List Nat) :
    (Sha256.hexDigest msg).length = 64 ∧
    ∀ c ∈ (Sha256.hexDigest msg).toList, c ∈ "0123456789abcdef".toList := by
  constructor
  · unfold Sha256.hexDigest
    simp [String.length, hexWord_length]
  · intro c hc
    replace hc : c ∈ Sha256.hexWord (Sha256.digestWords msg).a
        ++ Sha256.hexWord (Sha256.digestWords msg).b ++ Sha256.hexWord (Sha256.digestWords msg).c
        ++ Sha256.hexWord (Sha256.digestWords msg).d ++ Sha256.hexWord (Sha256.digestWords msg).e
        ++ Sha256.hexWord (Sha256.digestWords msg).f ++ Sha256.hexWord (Sha256.digestWords msg).g
        ++ Sha256.hexWord (Sha256.digestWords msg).h := hc
    simp only [List.mem_append] at hc
    rcases hc with ((((((h | h) | h) | h) | h) | h) | h) | h <;> exact hexWord_mem _ c h

/-- C21: the token of `generateProof` is the prefix `0g-proof-` followed by the 64
hexadecimal digits of the SHA-256 digest of the UTF-8 bytes of the string
`prompt + response + timestamp`, joined without a delimiter.  So two calls whose joined
strings are equal return the same token; in particular, at one clock reading, two
(prompt, response) pairs with the same concatenation do, such as ("a", "bc") and
("ab", "c"). -/
theorem generateProof_depends_on_concatenation (prompt response : String) (now : Nat) :
    ZeroGClient.generateProof prompt response now
      = "0g-proof-"
        ++ Sha256.hexDigest (toUtf8Bytes (prompt ++ response ++ numberToString now)) ∧
    (Sha256.hexDigest (toUtf8Bytes (prompt ++ response ++ numberToString now))).length = 64 ∧
    (∀ c ∈ (Sha256.hexDigest
        (toUtf8Bytes (prompt ++ response ++ numberToString now))).toList,
      c ∈ "0123456789abcdef".toList) ∧
    (∀ prompt2 response2 : String, prompt2 ++ response2 = prompt ++ response →
      ZeroGClient.generateProof prompt2 response2 now
        = ZeroGClient.generateProof prompt response now) ∧
    (∀ (prompt2 response2 : String) (now2 : Nat),
      prompt2 ++ response2 ++ numberToString now2
        = prompt ++ response ++ numberToString now →
      ZeroGClient.generateProof prompt2 response2 now2
        = ZeroGClient.generateProof prompt response now) ∧
    ZeroGClient.generateProof "a" "bc" now = ZeroGClient.generateProof "ab" "c" now ∧
    ZeroGClient.generateProof "a" "1" 2 = ZeroGClient.generateProof "a" "" 12 := by
  have hjoin : ∀ (p2 r2 : String) (n2 : Nat),
      p2 ++ r2 ++ numberToString n2 = prompt ++ response ++ numberToString now →
      ZeroGClient.generateProof p2 r2 n2 = ZeroGClient.generateProof prompt response now := by
    intro p2 r2 n2 h
    unfold ZeroGClient.generateProof
    simp only [h]
  refine ⟨rfl, (hexDigest_chars _).1, (hexDigest_chars _).2, ?_, hjoin, ?_, ?_⟩
  · intro p2 r2 h
    exact hjoin p2 r2 now (by rw [h])
  · unfold ZeroGClient.generateProof
    have h : ("a" : String) ++ "bc" = "ab" ++ "c" := by decide
    simp only [h]
  · unfold ZeroGClient.generateProof
    have h : ("a" : String) ++ "1" ++ numberToString 2 = "a" ++ "" ++ numberToString 12 := by
      apply String.ext
      simp [numberToString, decDigit]
    simp only [h]

/-! ## Claims on the fallback request id -/

theorem createRequestOnChain_error_cases (c : Contract) (promptHash : String) :
    (∀ e, c.createRequest promptHash = .error e →
      (createRequestOnChain c promptHash).1 = .error e) ∧
    (∀ tx receipt, c.createRequest promptHash = .ok tx → tx.wait = .ok receipt →
      c.queryFilter = .ok [] →
      ∃ e, (createRequestOnChain c promptHash).1 = .error e) := by
  constructor
  · intro e h
    simp only [createRequestOnChain, h]
  · intro tx receipt h1 h2 h3
    refine ⟨"Cannot read properties of undefined (reading 'args')", ?_⟩
    simp only [createRequestOnChain, h1, h2, h3]
    rfl

theorem obtainRequestId_effects_of_error (c : Contract) (random : Rand)
    (promptHash e : String) (h : (createRequestOnChain c promptHash).1 = .error e) :
    (obtainRequestId (some c) random promptHash).2
      = (createRequestOnChain c promptHash).2 ++ [.mathRandom] := by
  unfold obtainRequestId
  simp only
  split
  next requestId effects heq =>
    rw [heq] at h
    simp at h
  next e2 effects heq => rw [heq]

theorem submitAnswerOnChain_head (c : Contract) (requestId : Nat)
    (aiResponse : InferenceResponse) :
    ∃ rest : List Effect,
      submitAnswerOnChain (some c) requestId aiResponse
        = .submitAnswer requestId aiResponse.text (toUtf8Bytes aiResponse.proof) :: rest := by
  unfold submitAnswerOnChain
  simp only
  split
  · exact ⟨[], rfl⟩
  · split
    · exact ⟨[.txWait], rfl⟩
    · exact ⟨[.txWait], rfl⟩

/-- C22: with a contract handle, when the `createRequest` block fails (the transaction
throws, or the `RequestCreated` log comes back empty so that no id can be read), the
chat handler draws a local request id, returns it, and after generation still calls
`submitAnswer` on the ledger, once, with that local id, the generated text and the UTF-8
bytes of the generated proof. -/
theorem fallback_id_is_submitted (c : Contract)
    (generate : InferenceRequest → Except String InferenceResponse)
    (random : Rand) (clock : Nat) (p e : String) (aiResponse : InferenceResponse)
    (hp : p ≠ "")
    (hgen : generate ⟨p, some "0g-governance-assistant-v1", some 0.7, some 1000⟩
      = .ok aiResponse)
    (hfail : (createRequestOnChain c (keccak256 (toUtf8Bytes p))).1 = .error e) :
    (chatHandler (some c) generate random clock (.string p)).1.requestId?
      = some (randomRequestId random) ∧
    (∃ rest : List Effect,
      (chatHandler (some c) generate random clock (.string p)).2
        = [.keccak256 p] ++ (createRequestOnChain c (keccak256 (toUtf8Bytes p))).2
          ++ [.mathRandom, .generateResponse p,
              .submitAnswer (randomRequestId random) aiResponse.text
                (toUtf8Bytes aiResponse.proof)] ++ rest) ∧
    (((chatHandler (some c) generate random clock (.string p)).2.filter
      Effect.isSubmitAnswer).length = 1) ∧
    (∀ e2, c.createRequest (keccak256 (toUtf8Bytes p)) = .error e2 →
      ∃ e3, (createRequestOnChain c (keccak256 (toUtf8Bytes p))).1 = .error e3) ∧
    (∀ tx receipt, c.createRequest (keccak256 (toUtf8Bytes p)) = .ok tx →
      tx.wait = .ok receipt → c.queryFilter = .ok [] →
      ∃ e3, (createRequestOnChain c (keccak256 (toUtf8Bytes p))).1 = .error e3) := by
  have hid := obtainRequestId_of_error c random _ e hfail
  have heff := obtainRequestId_effects_of_error c random _ e hfail
  have htrace := chatHandler_effects_of_generated (some c) generate random clock p
    aiResponse hp hgen
  rw [hid, heff] at htrace
  obtain ⟨rest, hrest⟩ := submitAnswerOnChain_head c (randomRequestId random) aiResponse
  have hcases := createRequestOnChain_error_cases c (keccak256 (toUtf8Bytes p))
  refine ⟨?_, ⟨rest, ?_⟩, ?_, fun e2 h => ⟨e2, hcases.1 e2 h⟩, hcases.2⟩
  · rw [chatHandler_of_generated _ _ _ _ _ _ hp hgen]
    simp only [HttpResponse.requestId?]
    rw [hid]
  · rw [htrace, hrest]
    simp
  · have hcount := submitAnswerOnChain_count (some c) (randomRequestId random) aiResponse
    have hbefore : ∀ x ∈ (createRequestOnChain c (keccak256 (toUtf8Bytes p))).2,
        x.isSubmitAnswer = false := (createRequestOnChain_effects c _).2.1
    rw [htrace]
    simp only [List.filter_append, List.length_append, hcount,
      filter_isSubmitAnswer_eq_nil _ hbefore]
    simp [Effect.isSubmitAnswer]

/-- C22 at a concrete input: the prompt "Treasury status" with a contract handle whose
`createRequest` transaction is confirmed while the queried event log is empty. -/
theorem fallback_id_is_submitted_witness :
    (chatHandler (some (confirmingContract 5 [])) (zeroGGenerate (fun c => [c]) 1700000000000)
        ⟨1, 4, by decide⟩ 1700000000001 (.string "Treasury status")).1.requestId?
      = some (randomRequestId ⟨1, 4, by decide⟩) ∧
    randomRequestId ⟨1, 4, by decide⟩ = 250000 :=
  ⟨(fallback_id_is_submitted (confirmingContract 5 [])
    (zeroGGenerate (fun c => [c]) 1700000000000) ⟨1, 4, by decide⟩ 1700000000001
    "Treasury status" "Cannot read properties of undefined (reading 'args')" _
    (by decide) rfl rfl).1, by decide⟩

end Veribot
